import Mathlib

/-
  Verification of trax/layers/activation_fns.py: elementwise activation
  layers over a tensor model.  Tensors are modelled as a shape (a list of
  dimension sizes), an element dtype tag, and flat row-major data whose
  elements are idealized as real numbers.  Elementwise backend primitives
  (np.maximum, np.minimum, np.where, np.tanh, np.expm1, np.logaddexp,
  scalar broadcasting) become pointwise operations on the flat data.
-/

namespace Trax

/-- Element dtypes of the numeric backend that this file uses. -/
inductive DType where
  | float32
  | float64
deriving DecidableEq, Repr

/-- A tensor of the numeric backend: shape, element dtype, and flat
row-major data, with elements idealized as real numbers. -/
structure Tensor where
  shape : List Nat
  dtype : DType
  data : List ℝ

/-- Elementwise map over a tensor, as a unary elementwise backend
operation: the shape and dtype are untouched, every data element is
transformed by f. -/
def Tensor.emap (f : ℝ → ℝ) (x : Tensor) : Tensor :=
  { x with data := x.data.map f }

/-- Elementwise binary operation of two same-shaped tensors (the only way
the source combines two tensors); shape and dtype are taken from the
first operand. -/
def Tensor.zipWith (f : ℝ → ℝ → ℝ) (x y : Tensor) : Tensor :=
  { shape := x.shape, dtype := x.dtype, data := List.zipWith f x.data y.data }

/-- Embedding of np.maximum on two same-shaped tensors. -/
noncomputable def Tensor.maximum (x y : Tensor) : Tensor :=
  Tensor.zipWith (fun a b => max a b) x y

/-- Embedding of np.zeros_like: a tensor of the same shape and dtype with
every element replaced by zero. -/
def Tensor.zeros_like (x : Tensor) : Tensor :=
  x.emap (fun _ => 0)

/-- Embedding of np.zeros(shape, dtype): row-major data is shape.prod
zeros (a rank-0 tensor holds exactly one element). -/
def Tensor.zeros (shape : List Nat) (dtype : DType) : Tensor :=
  { shape := shape, dtype := dtype, data := List.replicate shape.prod 0 }

/-- Scalar-times-tensor broadcast, as in lmbda * np.where(...). -/
def Tensor.smul (a : ℝ) (x : Tensor) : Tensor :=
  x.emap (fun v => a * v)

/-- A layer as produced by the Fn combinator of the layer framework: a
display name together with the forward function.  All activations in the
file are built this way except ThresholdedLinearUnit. -/
structure Layer where
  name : String
  forwardFn : Tensor → Tensor

/-- Embedding of trax.layers.base.Fn restricted to the one-input
one-output case used throughout the file. -/
def Fn (name : String) (f : Tensor → Tensor) : Layer :=
  { name := name, forwardFn := f }

/-- Applying a layer to an input tensor runs its forward function. -/
def Layer.apply (l : Layer) (x : Tensor) : Tensor :=
  l.forwardFn x

/-- Relu: np.maximum(x, np.zeros_like(x)). -/
noncomputable def Relu : Layer :=
  Fn ("Relu") (fun x => Tensor.maximum x (Tensor.zeros_like x))

/-- ParametricRelu with slope a (default 1.0):
np.maximum(a * x, np.zeros_like(x)). -/
noncomputable def ParametricRelu (a : ℝ := 1) : Layer :=
  Fn ("ParametricRelu") (fun x => Tensor.maximum (Tensor.smul a x) (Tensor.zeros_like x))

/-- LeakyRelu with slope a (default 0.01): np.where(x >= 0, x, a * x). -/
noncomputable def LeakyRelu (a : ℝ := 0.01) : Layer :=
  Fn ("LeakyRelu") (fun x => x.emap (fun v => if 0 ≤ v then v else a * v))

/-- Elu with coefficient a (default 1.0):
np.where(x > 0, x, a * np.expm1(x)). -/
noncomputable def Elu (a : ℝ := 1) : Layer :=
  Fn ("Elu") (fun x => x.emap (fun v => if 0 < v then v else a * (Real.exp v - 1)))

/-- Default alpha of Selu, as written in the source. -/
def seluAlphaDefault : ℝ := 1.6732632423543772848170429916717

/-- Default lmbda of Selu, as written in the source. -/
def seluLmbdaDefault : ℝ := 1.0507009873554804934193349852946

/-- Selu: lmbda * np.where(x > 0, x, alpha * np.expm1(x)). -/
noncomputable def Selu (alpha : ℝ := seluAlphaDefault)
    (lmbda : ℝ := seluLmbdaDefault) : Layer :=
  Fn ("Selu") (fun x =>
    Tensor.smul lmbda (x.emap (fun v => if 0 < v then v else alpha * (Real.exp v - 1))))

/-- The pointwise function computed by the Selu layer at each element. -/
noncomputable def seluFn (alpha lmbda : ℝ) (v : ℝ) : ℝ :=
  lmbda * (if 0 < v then v else alpha * (Real.exp v - 1))

/-- The antiderivative of the Gaussian: the integral of exp(-t^2) from 0
to z. -/
noncomputable def erfInt (z : ℝ) : ℝ :=
  ∫ t in (0 : ℝ)..z, Real.exp (-(t ^ 2))

/-- Modelled from the spec: math.erf of the trax math backend (the
backend module is not among the sources) is the Gauss error function. -/
noncomputable def erf (x : ℝ) : ℝ :=
  (2 / Real.sqrt Real.pi) * erfInt x

/-- The pointwise function computed by the Gelu layer:
x * 0.5 * (1.0 + math.erf(x / np.sqrt(2.0))). -/
noncomputable def geluFn (v : ℝ) : ℝ :=
  v * 0.5 * (1.0 + erf (v / Real.sqrt 2.0))

/-- Gelu: applies the erf-based Gelu formula elementwise. -/
noncomputable def Gelu : Layer :=
  Fn ("Gelu") (fun x => x.emap geluFn)

/-- The pointwise function computed by the FastGelu layer:
0.5 * x * (1 + np.tanh(x * 0.7978845608 * (1 + 0.044715 * x * x))). -/
noncomputable def fastGeluFn (v : ℝ) : ℝ :=
  0.5 * v * (1 + Real.tanh (v * 0.7978845608 * (1 + 0.044715 * v * v)))

/-- FastGelu: applies the tanh approximation of Gelu elementwise. -/
noncomputable def FastGelu : Layer :=
  Fn ("FastGelu") (fun x => x.emap fastGeluFn)

/-- The argument of tanh inside FastGelu. -/
noncomputable def uFn (v : ℝ) : ℝ :=
  v * 0.7978845608 * (1 + 0.044715 * v * v)

/-- Modelled from the spec: math.expit of the trax math backend (the
backend module is not among the sources) is the logistic sigmoid
1 / (1 + exp(-x)). -/
noncomputable def expit (x : ℝ) : ℝ :=
  1 / (1 + Real.exp (-x))

/-- Sigmoid: math.expit(x). -/
noncomputable def Sigmoid : Layer :=
  Fn ("Sigmoid") (fun x => x.emap expit)

/-- Tanh: np.tanh(x). -/
noncomputable def Tanh : Layer :=
  Fn ("Tanh") (fun x => x.emap Real.tanh)

/-- HardSigmoid: np.maximum(0, np.minimum(1, (1 + x))), with the scalars
0 and 1 broadcast elementwise against the tensor. -/
noncomputable def HardSigmoid : Layer :=
  Fn ("HardSigmoid") (fun x => x.emap (fun v => max 0 (min 1 (1 + v))))

/-- HardTanh: np.maximum(-1, np.minimum(1, x)), with the scalars -1 and 1
broadcast elementwise against the tensor. -/
noncomputable def HardTanh : Layer :=
  Fn ("HardTanh") (fun x => x.emap (fun v => max (-1) (min 1 v)))

/-- Embedding of np.logaddexp on scalars: log(exp x + exp y). -/
noncomputable def logaddexp (x y : ℝ) : ℝ :=
  Real.log (Real.exp x + Real.exp y)

/-- Softplus: np.logaddexp(x, 0.). -/
noncomputable def Softplus : Layer :=
  Fn ("Softplus") (fun x => x.emap (fun v => logaddexp v 0))

/-- An input-signature descriptor (a ShapeDtype of the framework): the
shape and dtype an input tensor will have.  init_weights_and_state of
ThresholdedLinearUnit receives one and discards it. -/
structure ShapeDtype where
  shape : List Nat
  dtype : DType
deriving DecidableEq

/-- ThresholdedLinearUnit layer state.  Modelled from the spec: before the
framework invokes the weight-initialization hook, the weight slot of a
base.Layer is unbound (the base class is not among the sources); weights
= none models that uninitialized state, weights = some w the ready state
with bound weight tensor w. -/
structure ThresholdedLinearUnit where
  weights : Option Tensor

/-- A freshly constructed ThresholdedLinearUnit, before any weight
initialization: its weight slot is unbound. -/
def ThresholdedLinearUnit.new : ThresholdedLinearUnit :=
  { weights := none }

/-- init_weights_and_state: discards the input signature and sets the
weight to np.zeros((), dtype=np.float32), a zero-valued scalar. -/
def ThresholdedLinearUnit.init_weights_and_state
    (_l : ThresholdedLinearUnit) (_input_signature : ShapeDtype) :
    ThresholdedLinearUnit :=
  { weights := some (Tensor.zeros [] DType.float32) }

/-- External weight assignment by the framework optimizer: binds the
weight slot to the scalar tensor holding t. -/
def ThresholdedLinearUnit.setWeight
    (_l : ThresholdedLinearUnit) (t : ℝ) : ThresholdedLinearUnit :=
  { weights := some { shape := [], dtype := DType.float32, data := [t] } }

/-- forward: threshold = self.weights; return np.maximum(inputs,
threshold), the scalar weight broadcast against the input.  Modelled from
the spec for the uninitialized state: invoking forward before weight
initialization is a framework-level uninitialized-state access error, so
the result is none there (and on a non-scalar weight, for which the
source never asks). -/
noncomputable def ThresholdedLinearUnit.forward
    (l : ThresholdedLinearUnit) (inputs : Tensor) : Option Tensor :=
  match l.weights with
  | none => none
  | some w =>
      if w.shape = [] then
        some (inputs.emap (fun v => max v w.data.headI))
      else
        none

/-- The pointwise function computed by the HardSigmoid layer. -/
noncomputable def hardSigmoidFn (v : ℝ) : ℝ :=
  max 0 (min 1 (1 + v))

/-- The pointwise function computed by the HardTanh layer. -/
noncomputable def hardTanhFn (v : ℝ) : ℝ :=
  max (-1) (min 1 v)

/-- A layer preserves shape and dtype (and, a fortiori, element count)
when applying it returns a tensor with the same shape, the same dtype and
as many data elements as its input. -/
def Preserves (l : Layer) : Prop :=
  ∀ x : Tensor,
    (l.apply x).shape = x.shape
  ∧ (l.apply x).dtype = x.dtype
  ∧ (l.apply x).data.length = x.data.length

/- Machinery for certified numeric bounds on erf and tanh, used to compare
Gelu with FastGelu: the Maclaurin series of the Gaussian antiderivative,
explicit rational partial sums with tail bounds, and exp enclosures. -/

/-- The everywhere-convergent Maclaurin series of erfInt. -/
noncomputable def SFun (z : ℝ) : ℝ :=
  tsum (fun n : ℕ => (-1) ^ n * z ^ (2 * n + 1) / (n.factorial * (2 * n + 1)))

/-- The series of SFun with the odd powers factored: SFun z = z * Rfun
(z^2). -/
noncomputable def Rfun (y : ℝ) : ℝ :=
  tsum (fun n : ℕ => (-1) ^ n * y ^ n / (n.factorial * (2 * n + 1)))

/-- The constant sqrt 2 / sqrt pi relating erf (x / sqrt 2) to Rfun. -/
noncomputable def cE : ℝ :=
  Real.sqrt 2 / Real.sqrt Real.pi

/-- The first 26 terms of Rfun as an explicit polynomial over an ordered
field, with coefficient denominators factorial n * (2 n + 1). -/
def erfPoly {K : Type} [LinearOrderedField K] (y : K) : K :=
  1 * (1 / 1) - y * (1 / 3) + y ^ 2 * (1 / 10) - y ^ 3 * (1 / 42) + y ^ 4 * (1 / 216)
  - y ^ 5 * (1 / 1320) + y ^ 6 * (1 / 9360) - y ^ 7 * (1 / 75600) + y ^ 8 * (1 / 685440)
  - y ^ 9 * (1 / 6894720) + y ^ 10 * (1 / 76204800) - y ^ 11 * (1 / 918086400)
  + y ^ 12 * (1 / 11975040000) - y ^ 13 * (1 / 168129561600) + y ^ 14 * (1 / 2528170444800)
  - y ^ 15 * (1 / 40537905408000) + y ^ 16 * (1 / 690452066304000)
  - y ^ 17 * (1 / 12449059983360000) + y ^ 18 * (1 / 236887827111936000)
  - y ^ 19 * (1 / 4744158915944448000) + y ^ 20 * (1 / 99748982335242240000)
  - y ^ 21 * (1 / 2196910513383505920000) + y ^ 22 * (1 / 50580032749992345600000)
  - y ^ 23 * (1 / 1215044786727593902080000) + y ^ 24 * (1 / 30401971684928732528640000)
  - y ^ 25 * (1 / 791071712209880285184000000)

/-- Geometric bound on the tail of Rfun after 26 terms, valid for
0 <= y <= 7: term ratios are at most 7/27, so the tail is at most the
27th term times 27/20. -/
def erfTail {K : Type} [LinearOrderedField K] (y : K) : K :=
  y ^ 26 / (403291461126605635584000000 * 53) * (27 / 20)

/-- The first 10 terms of the exponential series as an explicit
polynomial. -/
def expPoly {K : Type} [LinearOrderedField K] (q : K) : K :=
  1 / 1 + q / 1 + q ^ 2 / 2 + q ^ 3 / 6 + q ^ 4 / 24 + q ^ 5 / 120 + q ^ 6 / 720
  + q ^ 7 / 5040 + q ^ 8 / 40320 + q ^ 9 / 362880

/-- The error bound of Real.exp_bound at n = 10. -/
def expErr {K : Type} [LinearOrderedField K] (q : K) : K :=
  q ^ 10 * 11 / (3628800 * 10)

/-- Rational lower bound for exp on [0, 1]. -/
def expLo1 (q : ℚ) : ℚ := expPoly q - expErr q

/-- Rational upper bound for exp on [0, 1]. -/
def expHi1 (q : ℚ) : ℚ := expPoly q + expErr q

/-- Rational lower bound for exp on [0, 16], via exp w = exp (w/16) ^ 16. -/
def expLoW (w : ℚ) : ℚ := expLo1 (w / 16) ^ 16

/-- Rational upper bound for exp on [0, 16]. -/
def expHiW (w : ℚ) : ℚ := expHi1 (w / 16) ^ 16

/-- The FastGelu linear coefficient as a rational. -/
def c1Q : ℚ := 7978845608 / 10000000000

/-- The FastGelu cubic coefficient as a rational. -/
def c3Q : ℚ := 44715 / 1000000

/-- Rational twin of uFn. -/
def uQ (q : ℚ) : ℚ := q * c1Q * (1 + c3Q * q * q)

/-- Rational lower bound for the constant cE = sqrt 2 / sqrt pi. -/
def cLoQ : ℚ := 79788451 / 100000000

/-- Rational upper bound for the constant cE. -/
def cHiQ : ℚ := 79788465 / 100000000

/-- Rational lower bound for erf (x / sqrt 2) at a rational x in
[0, 37/10]. -/
def ElowQ (x : ℚ) : ℚ := cLoQ * x * (erfPoly (x ^ 2 / 2) - erfTail (x ^ 2 / 2))

/-- Rational upper bound for erf (x / sqrt 2) at a rational x in
[0, 37/10]. -/
def EhighQ (x : ℚ) : ℚ := cHiQ * x * (erfPoly (x ^ 2 / 2) + erfTail (x ^ 2 / 2))

/-- Rational lower bound for tanh (uFn x) at a rational x with
2 uQ x in [0, 16]. -/
def TlowQ (x : ℚ) : ℚ := 1 - 2 / (expLoW (2 * uQ x) + 1)

/-- Rational upper bound for tanh (uFn x) at a rational x with
2 uQ x in [0, 16]. -/
def ThighQ (x : ℚ) : ℚ := 1 - 2 / (expHiW (2 * uQ x) + 1)

/- Helper lemmas shared by the claim theorems. -/

theorem zipWith_map_right_self (f : ℝ → ℝ → ℝ) (g : ℝ → ℝ) (d : List ℝ) :
    List.zipWith f d (d.map g) = d.map (fun v => f v (g v)) := by
  induction d with
  | nil => rfl
  | cons a t ih => simp [ih]

theorem zipWith_map_map (f : ℝ → ℝ → ℝ) (g h : ℝ → ℝ) (d : List ℝ) :
    List.zipWith f (d.map g) (d.map h) = d.map (fun v => f (g v) (h v)) := by
  induction d with
  | nil => rfl
  | cons a t ih => simp [ih]

theorem Relu_apply (x : Tensor) : Relu.apply x = x.emap (fun v => max v 0) :=
  congrArg (Tensor.mk x.shape x.dtype)
    (zipWith_map_right_self (fun a b => max a b) (fun _ => 0) x.data)

/-- C1: for ThresholdedLinearUnit, immediately after initialization the
scalar weight equals 0 and forward(x) is the elementwise maximum of x and
0; and after an external assignment of any weight value t, forward(x) is
the elementwise maximum of x and t (the scalar weight broadcast). -/
theorem claim_C1_thresholded_linear_unit :
    (∀ (l : ThresholdedLinearUnit) (sig : ShapeDtype),
        (l.init_weights_and_state sig).weights
          = some { shape := [], dtype := DType.float32, data := [(0 : ℝ)] }
      ∧ ∀ x : Tensor,
          (l.init_weights_and_state sig).forward x
            = some (x.emap (fun v => max v 0)))
  ∧ (∀ (l : ThresholdedLinearUnit) (t : ℝ) (x : Tensor),
        (l.setWeight t).forward x = some (x.emap (fun v => max v t))) := by
  refine ⟨fun l sig => ⟨rfl, fun x => ?_⟩, fun l t x => ?_⟩
  · simp [ThresholdedLinearUnit.forward, ThresholdedLinearUnit.init_weights_and_state,
      Tensor.zeros]
  · simp [ThresholdedLinearUnit.forward, ThresholdedLinearUnit.setWeight]

/-- C3: the Relu layer returns the elementwise maximum of its input and
0, and Relu is idempotent: Relu(Relu(x)) = Relu(x). -/
theorem claim_C3_relu_max_and_idempotent :
    ∀ x : Tensor,
      Relu.apply x = x.emap (fun v => max v 0)
    ∧ Relu.apply (Relu.apply x) = Relu.apply x := by
  intro x
  refine ⟨Relu_apply x, ?_⟩
  rw [Relu_apply x, Relu_apply]
  have hff : (fun v : ℝ => max v 0) ∘ (fun v : ℝ => max v 0) = fun v : ℝ => max v 0 :=
    funext fun v => max_eq_left (le_max_right v 0)
  have hd : List.map (fun v : ℝ => max v 0) (List.map (fun v : ℝ => max v 0) x.data)
      = List.map (fun v : ℝ => max v 0) x.data := by
    rw [List.map_map, hff]
  exact congrArg (Tensor.mk x.shape x.dtype) hd

/-- C7: the ThresholdedLinearUnit lifecycle: a fresh instance is
uninitialized, init_weights_and_state is what moves it to the ready
state, forward on an uninitialized instance is the framework-level
uninitialized-state access error (modelled as none), and forward on an
initialized instance succeeds. -/
theorem claim_C7_lifecycle :
    ThresholdedLinearUnit.new.weights = none
  ∧ (∀ (l : ThresholdedLinearUnit) (sig : ShapeDtype),
      ((l.init_weights_and_state sig).weights).isSome = true)
  ∧ (∀ (l : ThresholdedLinearUnit) (x : Tensor),
      l.weights = none → l.forward x = none)
  ∧ (∀ (l : ThresholdedLinearUnit) (sig : ShapeDtype) (x : Tensor),
      ((l.init_weights_and_state sig).forward x).isSome = true) := by
  refine ⟨rfl, fun l sig => rfl, fun l x h => ?_, fun l sig x => ?_⟩
  · simp [ThresholdedLinearUnit.forward, h]
  · simp [ThresholdedLinearUnit.forward, ThresholdedLinearUnit.init_weights_and_state,
      Tensor.zeros]

/-- Witness for C7: on a concrete fresh instance and a concrete input,
forward before initialization yields the error value. -/
theorem claim_C7_lifecycle_witness :
    ThresholdedLinearUnit.new.forward
      { shape := [2], dtype := DType.float32, data := [1, -1] } = none :=
  claim_C7_lifecycle.2.2.1 ThresholdedLinearUnit.new
    { shape := [2], dtype := DType.float32, data := [1, -1] } rfl

/-- C8: ThresholdedLinearUnit weight initialization ignores its input
signature: any two signatures give the same weight, namely the
zero-valued scalar of shape [] and dtype float32. -/
theorem claim_C8_init_independent_of_signature :
    ∀ (l₁ l₂ : ThresholdedLinearUnit) (s₁ s₂ : ShapeDtype),
      (l₁.init_weights_and_state s₁).weights = (l₂.init_weights_and_state s₂).weights
    ∧ (l₁.init_weights_and_state s₁).weights
        = some { shape := [], dtype := DType.float32, data := [(0 : ℝ)] } :=
  fun _ _ _ _ => ⟨rfl, rfl⟩

/-- C10: ParametricRelu with its default slope 1.0 computes exactly the
same function as Relu on every input tensor. -/
theorem claim_C10_parametric_relu_default_is_relu :
    ∀ x : Tensor, Layer.apply ParametricRelu x = Layer.apply Relu x := by
  intro x
  simp [ParametricRelu, Relu, Layer.apply, Fn, Tensor.maximum, Tensor.smul,
    Tensor.emap, Tensor.zipWith, one_mul]

/-- C4: HardSigmoid computes clamp(1+x, 0, 1) elementwise, and every
output element lies in the closed interval from 0 to 1. -/
theorem claim_C4_hard_sigmoid_clamp_and_range :
    (∀ x : Tensor, HardSigmoid.apply x = x.emap hardSigmoidFn)
  ∧ (∀ v : ℝ, hardSigmoidFn v = max 0 (min 1 (1 + v)))
  ∧ (∀ (x : Tensor) (y : ℝ), y ∈ (HardSigmoid.apply x).data → 0 ≤ y ∧ y ≤ 1) := by
  refine ⟨fun x => rfl, fun v => rfl, fun x y hy => ?_⟩
  rcases List.mem_map.mp hy with ⟨v, _, rfl⟩
  exact ⟨le_max_left 0 _, max_le zero_le_one (min_le_left _ _)⟩

/-- Witness for C4: for the concrete input tensor of shape [2] with data
[-3, 5], the output element at the first position is in the unit
interval. -/
theorem claim_C4_hard_sigmoid_witness :
    0 ≤ max 0 (min 1 (1 + (-3 : ℝ))) ∧ max 0 (min 1 (1 + (-3 : ℝ))) ≤ 1 :=
  claim_C4_hard_sigmoid_clamp_and_range.2.2
    (Tensor.mk [2] DType.float32 [-3, 5])
    (max 0 (min 1 (1 + (-3 : ℝ))))
    (List.mem_map_of_mem _ (by simp))

/-- C5: every output element of HardTanh lies in the interval from -1 to
1, and HardTanh is the identity on the open interval from -1 to 1. -/
theorem claim_C5_hard_tanh_range_and_identity :
    (∀ x : Tensor, HardTanh.apply x = x.emap hardTanhFn)
  ∧ (∀ (x : Tensor) (y : ℝ), y ∈ (HardTanh.apply x).data → -1 ≤ y ∧ y ≤ 1)
  ∧ (∀ v : ℝ, -1 < v → v < 1 → hardTanhFn v = v) := by
  refine ⟨fun x => rfl, fun x y hy => ?_, fun v h1 h2 => ?_⟩
  · rcases List.mem_map.mp hy with ⟨v, _, rfl⟩
    exact ⟨le_max_left _ _, max_le (neg_one_lt_zero.le.trans zero_le_one) (min_le_left _ _)⟩
  · rw [hardTanhFn, min_eq_right h2.le, max_eq_right h1.le]

/-- Witness for C5: at the concrete point 0 of the open interval, and on
the concrete rank-1 input [0], the conclusions hold. -/
theorem claim_C5_hard_tanh_witness :
    hardTanhFn 0 = 0 ∧ (-1 ≤ hardTanhFn 0 ∧ hardTanhFn 0 ≤ 1) :=
  ⟨claim_C5_hard_tanh_range_and_identity.2.2 0 neg_one_lt_zero zero_lt_one,
   claim_C5_hard_tanh_range_and_identity.2.1
     (Tensor.mk [1] DType.float32 [0]) (hardTanhFn 0)
     (List.mem_map_of_mem _ (by simp))⟩

/-- The piecewise Selu element function rewritten as a composition of
everywhere-continuous operations. -/
theorem seluFn_eq_max_min (a l : ℝ) :
    seluFn a l = fun v => l * (max v 0 + a * min (Real.exp v - 1) 0) := by
  funext v
  by_cases h : 0 < v
  · have h1 : max v 0 = v := max_eq_left h.le
    have h2 : min (Real.exp v - 1) 0 = 0 :=
      min_eq_right (sub_nonneg.mpr (Real.one_lt_exp_iff.mpr h).le)
    simp [seluFn, if_pos h, h1, h2]
  · have h1 : max v 0 = 0 := max_eq_right (le_of_not_lt h)
    have h2 : min (Real.exp v - 1) 0 = Real.exp v - 1 :=
      min_eq_left (sub_nonpos.mpr (Real.exp_le_one_iff.mpr (le_of_not_lt h)))
    simp [seluFn, if_neg h, h1, h2]

/-- The Selu element function is continuous everywhere. -/
theorem seluFn_continuous (a l : ℝ) : Continuous (seluFn a l) := by
  rw [seluFn_eq_max_min]
  exact continuous_const.mul ((continuous_id.max continuous_const).add
    (continuous_const.mul ((Real.continuous_exp.sub continuous_const).min
      continuous_const)))

/-- C6: Selu with its default parameters computes lmbda * x for positive
inputs and lmbda * alpha * (exp x - 1) otherwise, vanishes at 0, and is
continuous at 0 (in particular its left and right limits there agree and
equal the value 0). -/
theorem claim_C6_selu_at_zero :
    (∀ x : Tensor,
        Layer.apply (Selu seluAlphaDefault seluLmbdaDefault) x
          = x.emap (seluFn seluAlphaDefault seluLmbdaDefault))
  ∧ (∀ v : ℝ, seluFn seluAlphaDefault seluLmbdaDefault v
        = if 0 < v then seluLmbdaDefault * v
          else seluLmbdaDefault * (seluAlphaDefault * (Real.exp v - 1)))
  ∧ seluFn seluAlphaDefault seluLmbdaDefault 0 = 0
  ∧ ContinuousAt (seluFn seluAlphaDefault seluLmbdaDefault) 0
  ∧ Filter.Tendsto (seluFn seluAlphaDefault seluLmbdaDefault)
      (nhdsWithin 0 (Set.Iio 0)) (nhds 0)
  ∧ Filter.Tendsto (seluFn seluAlphaDefault seluLmbdaDefault)
      (nhdsWithin 0 (Set.Ioi 0)) (nhds 0) := by
  have h0 : seluFn seluAlphaDefault seluLmbdaDefault 0 = 0 := by
    simp [seluFn, Real.exp_zero]
  have hc := seluFn_continuous seluAlphaDefault seluLmbdaDefault
  have hIio := (hc.continuousWithinAt :
    ContinuousWithinAt (seluFn seluAlphaDefault seluLmbdaDefault) (Set.Iio 0) 0)
  have hIoi := (hc.continuousWithinAt :
    ContinuousWithinAt (seluFn seluAlphaDefault seluLmbdaDefault) (Set.Ioi 0) 0)
  rw [ContinuousWithinAt, h0] at hIio hIoi
  refine ⟨fun x => ?_, fun v => by simp [seluFn, mul_ite], h0, hc.continuousAt,
    hIio, hIoi⟩
  exact congrArg (Tensor.mk x.shape x.dtype) (List.map_map _ _ _)

/-- C2: every activation layer of the file maps any input tensor (of any
rank, hence in particular rank 0, 1 and 3 or more) to a tensor of the
same shape, the same dtype and the same number of elements; for
ThresholdedLinearUnit this holds for every successful forward pass. -/
theorem claim_C2_shape_dtype_preserved :
    Preserves Relu
  ∧ (∀ a : ℝ, Preserves (ParametricRelu a))
  ∧ (∀ a : ℝ, Preserves (LeakyRelu a))
  ∧ (∀ a : ℝ, Preserves (Elu a))
  ∧ (∀ a l : ℝ, Preserves (Selu a l))
  ∧ Preserves Gelu
  ∧ Preserves FastGelu
  ∧ Preserves Sigmoid
  ∧ Preserves Tanh
  ∧ Preserves HardSigmoid
  ∧ Preserves HardTanh
  ∧ Preserves Softplus
  ∧ (∀ (tlu : ThresholdedLinearUnit) (x y : Tensor),
      tlu.forward x = some y →
        y.shape = x.shape ∧ y.dtype = x.dtype ∧ y.data.length = x.data.length) := by
  refine ⟨fun x => ?_, fun a x => ?_, fun a x => ?_, fun a x => ?_, fun a l x => ?_,
    fun x => ?_, fun x => ?_, fun x => ?_, fun x => ?_, fun x => ?_, fun x => ?_,
    fun x => ?_, fun tlu x y h => ?_⟩
  · exact ⟨rfl, rfl, by
      simp [Relu, Layer.apply, Fn, Tensor.maximum, Tensor.zipWith, Tensor.zeros_like,
        Tensor.emap]⟩
  · exact ⟨rfl, rfl, by
      simp [ParametricRelu, Layer.apply, Fn, Tensor.maximum, Tensor.zipWith,
        Tensor.zeros_like, Tensor.smul, Tensor.emap]⟩
  · exact ⟨rfl, rfl, List.length_map _ _⟩
  · exact ⟨rfl, rfl, List.length_map _ _⟩
  · exact ⟨rfl, rfl, by simp [Selu, Layer.apply, Fn, Tensor.smul, Tensor.emap]⟩
  · exact ⟨rfl, rfl, List.length_map _ _⟩
  · exact ⟨rfl, rfl, List.length_map _ _⟩
  · exact ⟨rfl, rfl, List.length_map _ _⟩
  · exact ⟨rfl, rfl, List.length_map _ _⟩
  · exact ⟨rfl, rfl, List.length_map _ _⟩
  · exact ⟨rfl, rfl, List.length_map _ _⟩
  · exact ⟨rfl, rfl, List.length_map _ _⟩
  · rcases hw : tlu.weights with _ | w
    · simp [ThresholdedLinearUnit.forward, hw] at h
    · simp only [ThresholdedLinearUnit.forward, hw] at h
      by_cases hs : w.shape = []
      · rw [if_pos hs, Option.some_inj] at h
        subst h
        exact ⟨rfl, rfl, List.length_map _ _⟩
      · rw [if_neg hs] at h
        exact absurd h (by simp)

/-- Witness for C2: the initialized thresholded unit maps the concrete
rank-1 input of shape [3] to an output of shape [3], dtype float32 and 3
elements. -/
theorem claim_C2_shape_dtype_preserved_witness :
    (Tensor.emap (fun v => max v (2 : ℝ)) (Tensor.mk [3] DType.float32 [1, -1, 0])).shape = [3]
  ∧ (Tensor.emap (fun v => max v (2 : ℝ)) (Tensor.mk [3] DType.float32 [1, -1, 0])).dtype
      = DType.float32
  ∧ (Tensor.emap (fun v => max v (2 : ℝ)) (Tensor.mk [3] DType.float32 [1, -1, 0])).data.length
      = 3 :=
  claim_C2_shape_dtype_preserved.2.2.2.2.2.2.2.2.2.2.2.2
    (ThresholdedLinearUnit.new.setWeight 2)
    (Tensor.mk [3] DType.float32 [1, -1, 0])
    (Tensor.emap (fun v => max v (2 : ℝ)) (Tensor.mk [3] DType.float32 [1, -1, 0]))
    rfl

/- Numeric-bound lemmas for the Gelu vs FastGelu comparison. -/

theorem tanh_formula (w : ℝ) : Real.tanh w = 1 - 2 / (Real.exp (2 * w) + 1) := by
  have h1 : Real.exp w > 0 := Real.exp_pos w
  have h2 : Real.exp (-w) > 0 := Real.exp_pos (-w)
  have h3 : Real.exp (2 * w) = Real.exp w * Real.exp w := by
    rw [two_mul, Real.exp_add]
  have h4 : Real.exp w * Real.exp (-w) = 1 := by
    rw [← Real.exp_add]; simp
  rw [Real.tanh_eq_sinh_div_cosh, Real.sinh_eq, Real.cosh_eq, h3]
  have h5 : Real.exp w + Real.exp (-w) > 0 := by positivity
  have h6 : Real.exp w * Real.exp w + 1 > 0 := by positivity
  field_simp
  nlinarith [h4]

theorem tanh_mono {a b : ℝ} (h : a ≤ b) : Real.tanh a ≤ Real.tanh b := by
  rw [tanh_formula, tanh_formula]
  have he : Real.exp (2 * a) ≤ Real.exp (2 * b) := Real.exp_le_exp.mpr (by linarith)
  have pa : (0 : ℝ) < Real.exp (2 * a) + 1 := by positivity
  have hdiv : 2 / (Real.exp (2 * b) + 1) ≤ 2 / (Real.exp (2 * a) + 1) :=
    div_le_div_of_nonneg_left (by norm_num) pa (by linarith)
  linarith

theorem tanh_le_one (w : ℝ) : Real.tanh w ≤ 1 := by
  rw [tanh_formula]
  have pa : (0 : ℝ) < Real.exp (2 * w) + 1 := by positivity
  have : 0 ≤ 2 / (Real.exp (2 * w) + 1) := by positivity
  linarith

theorem uFn_nonneg {x : ℝ} (h0 : 0 ≤ x) : 0 ≤ uFn x := by
  unfold uFn
  positivity

theorem uFn_mono {x y : ℝ} (h0 : 0 ≤ x) (hxy : x ≤ y) : uFn x ≤ uFn y := by
  unfold uFn
  nlinarith [pow_le_pow_left₀ h0 hxy 3, sq_nonneg x, sq_nonneg y]

theorem uFn_odd (v : ℝ) : uFn (-v) = -uFn v := by
  unfold uFn; ring

theorem uQ_cast (q : ℚ) : ((uQ q : ℚ) : ℝ) = uFn (q : ℝ) := by
  unfold uQ uFn c1Q c3Q
  push_cast
  norm_num

theorem expPoly_eq_sum (x : ℝ) :
    expPoly x = ∑ m ∈ Finset.range 10, x ^ m / m.factorial := by
  simp [Finset.sum_range_succ, expPoly]
  norm_num [Nat.factorial]

theorem exp_enclosure_1 (q : ℚ) (h0 : 0 ≤ q) (h1 : q ≤ 1) :
    ((expLo1 q : ℚ) : ℝ) ≤ Real.exp q ∧ Real.exp q ≤ ((expHi1 q : ℚ) : ℝ) := by
  have habs : |(q : ℝ)| ≤ 1 := by
    rw [abs_of_nonneg (by exact_mod_cast h0)]
    exact_mod_cast h1
  have hb := Real.exp_bound habs (by norm_num : 0 < 10)
  rw [← expPoly_eq_sum, abs_of_nonneg (show (0 : ℝ) ≤ (q : ℝ) by exact_mod_cast h0)] at hb
  norm_num [Nat.factorial] at hb
  have hlo : ((expLo1 q : ℚ) : ℝ) = expPoly (q : ℝ) - (q : ℝ) ^ 10 * (11 / 36288000) := by
    unfold expLo1 expPoly expErr
    push_cast
    ring
  have hhi : ((expHi1 q : ℚ) : ℝ) = expPoly (q : ℝ) + (q : ℝ) ^ 10 * (11 / 36288000) := by
    unfold expHi1 expPoly expErr
    push_cast
    ring
  rcases abs_le.mp hb with ⟨hl, hr⟩
  constructor
  · rw [hlo]; linarith
  · rw [hhi]; linarith

theorem expLo1_nonneg (q : ℚ) (h0 : 0 ≤ q) (h1 : q ≤ 1) : 0 ≤ expLo1 q := by
  have hpoly : 1 ≤ expPoly q := by
    unfold expPoly
    nlinarith [pow_nonneg h0 2, pow_nonneg h0 3, pow_nonneg h0 4, pow_nonneg h0 5,
      pow_nonneg h0 6, pow_nonneg h0 7, pow_nonneg h0 8, pow_nonneg h0 9]
  have herr : expErr q ≤ 1 / 2 := by
    have : q ^ 10 ≤ 1 := pow_le_one₀ h0 h1
    unfold expErr
    nlinarith
  unfold expLo1
  linarith

theorem expW_enclosure (w : ℚ) (h0 : 0 ≤ w) (h16 : w ≤ 16) :
    (0 : ℝ) ≤ ((expLoW w : ℚ) : ℝ)
  ∧ ((expLoW w : ℚ) : ℝ) ≤ Real.exp w
  ∧ Real.exp w ≤ ((expHiW w : ℚ) : ℝ) := by
  have hp0 : 0 ≤ w / 16 := by positivity
  have hp1 : w / 16 ≤ 1 := by linarith
  have henc := exp_enclosure_1 (w / 16) hp0 hp1
  have hlo0 : (0 : ℝ) ≤ ((expLo1 (w / 16) : ℚ) : ℝ) := by
    exact_mod_cast expLo1_nonneg (w / 16) hp0 hp1
  have hw : Real.exp w = Real.exp ((w : ℝ) / 16) ^ 16 := by
    rw [← Real.exp_nat_mul]
    push_cast
    ring_nf
  have hcastlo : ((expLoW w : ℚ) : ℝ) = ((expLo1 (w / 16) : ℚ) : ℝ) ^ 16 := by
    unfold expLoW
    push_cast
    norm_num
  have hcasthi : ((expHiW w : ℚ) : ℝ) = ((expHi1 (w / 16) : ℚ) : ℝ) ^ 16 := by
    unfold expHiW
    push_cast
    norm_num
  refine ⟨?_, ?_, ?_⟩
  · rw [hcastlo]; positivity
  · rw [hcastlo, hw]
    have h := henc.1
    push_cast at h
    exact pow_le_pow_left₀ hlo0 h 16
  · rw [hcasthi, hw]
    have h := henc.2
    push_cast at h
    exact pow_le_pow_left₀ (Real.exp_pos _).le h 16

theorem exp_real_tsum (w : ℝ) : Real.exp w = tsum (fun n : ℕ => w ^ n / n.factorial) := by
  rw [Real.exp_eq_exp_ℝ]
  exact congrFun NormedSpace.exp_eq_tsum_div w

theorem abs_S_term (z : ℝ) (n : ℕ) :
    ‖(-1 : ℝ) ^ n * z ^ (2 * n + 1) / (n.factorial * (2 * n + 1))‖
      = |z| ^ (2 * n + 1) / (n.factorial * (2 * n + 1)) := by
  have hc : (0 : ℝ) < (n.factorial : ℝ) * (2 * n + 1) := by positivity
  rw [Real.norm_eq_abs, abs_div, abs_mul, abs_pow, abs_neg, abs_one, one_pow, one_mul,
    abs_pow, abs_of_pos hc]

theorem abs_R_term (y : ℝ) (n : ℕ) :
    ‖(-1 : ℝ) ^ n * y ^ n / (n.factorial * (2 * n + 1))‖
      = |y| ^ n / (n.factorial * (2 * n + 1)) := by
  have hc : (0 : ℝ) < (n.factorial : ℝ) * (2 * n + 1) := by positivity
  rw [Real.norm_eq_abs, abs_div, abs_mul, abs_pow, abs_neg, abs_one, one_pow, one_mul,
    abs_pow, abs_of_pos hc]

theorem summable_S_aux (z : ℝ) :
    Summable (fun n : ℕ => |z| * ((z ^ 2) ^ n / n.factorial)) :=
  (Real.summable_pow_div_factorial (z ^ 2)).mul_left |z|

theorem summable_S (z : ℝ) :
    Summable (fun n : ℕ => (-1) ^ n * z ^ (2 * n + 1) / (n.factorial * (2 * n + 1))) := by
  refine Summable.of_norm_bounded _ (summable_S_aux z) ?_
  intro n
  rw [abs_S_term]
  have h1 : |z| ^ (2 * n + 1) = |z| * (z ^ 2) ^ n := by
    rw [pow_succ, pow_mul, sq_abs]
    ring
  have hfac : (0 : ℝ) < (n.factorial : ℝ) := by positivity
  have hden : (n.factorial : ℝ) ≤ (n.factorial : ℝ) * (2 * n + 1) := by
    nlinarith [hfac]
  have h2 : |z| ^ (2 * n + 1) / ((n.factorial : ℝ) * (2 * n + 1))
      ≤ |z| ^ (2 * n + 1) / (n.factorial : ℝ) :=
    div_le_div_of_nonneg_left (by positivity) hfac hden
  calc |z| ^ (2 * n + 1) / ((n.factorial : ℝ) * (2 * n + 1))
      ≤ |z| ^ (2 * n + 1) / (n.factorial : ℝ) := h2
    _ = |z| * ((z ^ 2) ^ n / n.factorial) := by rw [h1]; ring

theorem summable_R (y : ℝ) :
    Summable (fun n : ℕ => (-1) ^ n * y ^ n / (n.factorial * (2 * n + 1))) := by
  refine Summable.of_norm_bounded _ (Real.summable_pow_div_factorial |y|) ?_
  intro n
  rw [abs_R_term]
  have hfac : (0 : ℝ) < (n.factorial : ℝ) := by positivity
  have hden : (n.factorial : ℝ) ≤ (n.factorial : ℝ) * (2 * n + 1) := by
    nlinarith [hfac]
  exact div_le_div_of_nonneg_left (by positivity) hfac hden

theorem continuous_gauss : Continuous fun t : ℝ => Real.exp (-(t ^ 2)) :=
  Real.continuous_exp.comp ((continuous_pow 2).neg)

theorem hasDerivAt_SFun (z : ℝ) : HasDerivAt SFun (Real.exp (-(z ^ 2))) z := by
  have hg : ∀ (n : ℕ) (y : ℝ), y ∈ Metric.ball (0 : ℝ) (|z| + 1) →
      HasDerivAt (fun w : ℝ => (-1 : ℝ) ^ n * w ^ (2 * n + 1) / (n.factorial * (2 * n + 1)))
        ((-1 : ℝ) ^ n * y ^ (2 * n) / n.factorial) y := by
    intro n y _
    have hp := hasDerivAt_pow (2 * n + 1) y
    have hfun : (fun w : ℝ => (-1 : ℝ) ^ n * w ^ (2 * n + 1) / (n.factorial * (2 * n + 1)))
        = fun w : ℝ => ((-1 : ℝ) ^ n / (n.factorial * (2 * n + 1))) * w ^ (2 * n + 1) := by
      funext w; ring
    have hval : (-1 : ℝ) ^ n * y ^ (2 * n) / n.factorial
        = ((-1 : ℝ) ^ n / (n.factorial * (2 * n + 1))) * ((2 * n + 1 : ℕ) * y ^ (2 * n + 1 - 1)) := by
      have h1 : 2 * n + 1 - 1 = 2 * n := by omega
      have hne : (n.factorial : ℝ) ≠ 0 := by positivity
      have hne2 : ((2 * n + 1 : ℕ) : ℝ) ≠ 0 := by positivity
      rw [h1]
      field_simp
      ring
    rw [hfun, hval]
    exact hp.const_mul _
  have hg' : ∀ (n : ℕ) (y : ℝ), y ∈ Metric.ball (0 : ℝ) (|z| + 1) →
      ‖(-1 : ℝ) ^ n * y ^ (2 * n) / n.factorial‖ ≤ ((|z| + 1) ^ 2) ^ n / n.factorial := by
    intro n y hy
    have hyb : |y| ≤ |z| + 1 := by
      have h := Metric.mem_ball.mp hy
      rw [Real.dist_eq, sub_zero] at h
      exact h.le
    have hm : (0 : ℝ) < (n.factorial : ℝ) := by positivity
    have habs : ‖(-1 : ℝ) ^ n * y ^ (2 * n) / n.factorial‖ = |y| ^ (2 * n) / n.factorial := by
      rw [Real.norm_eq_abs, abs_div, abs_mul, abs_pow, abs_neg, abs_one, one_pow, one_mul,
        abs_pow, abs_of_pos hm]
    rw [habs, div_le_div_iff_of_pos_right hm]
    calc |y| ^ (2 * n) = (|y| ^ 2) ^ n := by rw [← pow_mul]
      _ ≤ ((|z| + 1) ^ 2) ^ n := by
          refine pow_le_pow_left₀ (by positivity) ?_ n
          exact pow_le_pow_left₀ (abs_nonneg y) hyb 2
  have hu : Summable (fun n : ℕ => ((|z| + 1) ^ 2) ^ n / (n.factorial : ℝ)) :=
    Real.summable_pow_div_factorial _
  have h0mem : (0 : ℝ) ∈ Metric.ball (0 : ℝ) (|z| + 1) := by
    rw [Metric.mem_ball, dist_self]
    positivity
  have hzmem : z ∈ Metric.ball (0 : ℝ) (|z| + 1) := by
    rw [Metric.mem_ball, Real.dist_eq, sub_zero]
    linarith [abs_nonneg z, le_abs_self z]
  have h0sum : Summable (fun n : ℕ =>
      (-1 : ℝ) ^ n * (0 : ℝ) ^ (2 * n + 1) / (n.factorial * (2 * n + 1))) :=
    summable_S 0
  have hd := hasDerivAt_tsum_of_isPreconnected hu Metric.isOpen_ball
    ((convex_ball (0 : ℝ) (|z| + 1)).isPreconnected) hg hg' h0mem h0sum hzmem
  have hsum : tsum (fun n : ℕ => (-1 : ℝ) ^ n * z ^ (2 * n) / n.factorial) = Real.exp (-(z ^ 2)) := by
    rw [exp_real_tsum (-(z ^ 2))]
    apply tsum_congr
    intro n
    have h : (-(z ^ 2)) ^ n = (-1 : ℝ) ^ n * z ^ (2 * n) := by
      rw [neg_pow, pow_mul]
    rw [h]
  unfold SFun
  rw [← hsum]
  exact hd

theorem hasDerivAt_erfInt (z : ℝ) : HasDerivAt erfInt (Real.exp (-(z ^ 2))) z :=
  intervalIntegral.integral_hasDerivAt_right
    (continuous_gauss.intervalIntegrable _ _)
    (continuous_gauss.stronglyMeasurableAtFilter _ _)
    continuous_gauss.continuousAt

theorem SFun_eq_erfInt (z : ℝ) : SFun z = erfInt z := by
  have hd : ∀ w : ℝ, HasDerivAt (fun v => SFun v - erfInt v) 0 w := by
    intro w
    have h := (hasDerivAt_SFun w).sub (hasDerivAt_erfInt w)
    simpa using h
  have hdiff : Differentiable ℝ (fun v => SFun v - erfInt v) :=
    fun w => (hd w).differentiableAt
  have hconst := is_const_of_deriv_eq_zero hdiff (fun w => (hd w).deriv) z 0
  have hS0 : SFun 0 = 0 := by
    unfold SFun
    have h : ∀ n : ℕ, (-1 : ℝ) ^ n * (0 : ℝ) ^ (2 * n + 1) / (n.factorial * (2 * n + 1)) = 0 := by
      intro n
      rw [zero_pow (by omega : 2 * n + 1 ≠ 0)]
      ring
    rw [tsum_congr h, tsum_zero]
  have hI0 : erfInt 0 = 0 := intervalIntegral.integral_same
  have h0 : SFun 0 - erfInt 0 = 0 := by rw [hS0, hI0, sub_zero]
  have hz := hconst
  rw [h0] at hz
  linarith

theorem SFun_odd (z : ℝ) : SFun (-z) = -SFun z := by
  unfold SFun
  rw [← tsum_neg]
  apply tsum_congr
  intro n
  have h : (-z) ^ (2 * n + 1) = -(z ^ (2 * n + 1)) := Odd.neg_pow ⟨n, by ring⟩ z
  rw [h]
  ring

theorem SFun_eq_mul_R (z : ℝ) : SFun z = z * Rfun (z ^ 2) := by
  unfold SFun Rfun
  rw [← tsum_mul_left]
  apply tsum_congr
  intro n
  have h : z ^ (2 * n + 1) = z * (z ^ 2) ^ n := by
    rw [pow_succ, pow_mul]
    ring
  rw [h]
  ring

theorem factorial_lower (i : ℕ) : Nat.factorial 26 * 27 ^ i ≤ (i + 26).factorial := by
  induction i with
  | zero => simp
  | succ k ih =>
    have h : k + 1 + 26 = (k + 26) + 1 := by omega
    rw [h, Nat.factorial_succ, pow_succ]
    calc Nat.factorial 26 * (27 ^ k * 27) = 27 * (Nat.factorial 26 * 27 ^ k) := by ring
      _ ≤ (k + 26 + 1) * (k + 26).factorial := Nat.mul_le_mul (by omega) ih

theorem Rfun_bracket (y : ℝ) (h0 : 0 ≤ y) (h7 : y ≤ 7) :
    |Rfun y - erfPoly y| ≤ erfTail y := by
  have hsum := summable_R y
  have hsplit := sum_add_tsum_nat_add 26 hsum
  have hpoly : (∑ i ∈ Finset.range 26,
      (-1 : ℝ) ^ i * y ^ i / (i.factorial * (2 * i + 1))) = erfPoly y := by
    simp [Finset.sum_range_succ, erfPoly]
    norm_num [Nat.factorial]
    ring
  have habsy : |y| = y := abs_of_nonneg h0
  have hc26 : ((403291461126605635584000000 : ℝ)) = (Nat.factorial 26 : ℝ) := by
    norm_num [Nat.factorial]
  have ht_bound : ∀ i : ℕ,
      ‖(-1 : ℝ) ^ (i + 26) * y ^ (i + 26)
          / ((i + 26).factorial * (2 * ((i + 26 : ℕ) : ℝ) + 1))‖
        ≤ (y ^ 26 / (403291461126605635584000000 * 53)) * (7 / 27) ^ i := by
    intro i
    rw [abs_R_term, habsy]
    have hnum : y ^ (i + 26) ≤ 7 ^ i * y ^ 26 := by
      rw [pow_add]
      have : y ^ i ≤ 7 ^ i := pow_le_pow_left₀ h0 h7 i
      nlinarith [pow_nonneg h0 26, pow_nonneg h0 i, pow_nonneg (show (0:ℝ) ≤ 7 by norm_num) i]
    have hden : ((Nat.factorial 26 : ℝ) * 27 ^ i) * 53
        ≤ ((i + 26).factorial : ℝ) * (2 * ((i + 26 : ℕ) : ℝ) + 1) := by
      have h1 : ((Nat.factorial 26 * 27 ^ i : ℕ) : ℝ) ≤ (((i + 26).factorial : ℕ) : ℝ) := by
        exact_mod_cast factorial_lower i
      push_cast at h1
      have h2 : (53 : ℝ) ≤ 2 * ((i : ℝ) + 26) + 1 := by
        have : (0 : ℝ) ≤ (i : ℝ) := Nat.cast_nonneg i
        linarith
      have h3 : (0 : ℝ) < (Nat.factorial 26 : ℝ) * 27 ^ i := by positivity
      calc ((Nat.factorial 26 : ℝ) * 27 ^ i) * 53
          ≤ (((i + 26).factorial : ℕ) : ℝ) * 53 := by nlinarith
        _ ≤ (((i + 26).factorial : ℕ) : ℝ) * (2 * ((i : ℝ) + 26) + 1) := by
            have hf : (0 : ℝ) ≤ (((i + 26).factorial : ℕ) : ℝ) := by positivity
            nlinarith
        _ = ((i + 26).factorial : ℝ) * (2 * ((i + 26 : ℕ) : ℝ) + 1) := by push_cast; ring
    have hstep : y ^ (i + 26) / (((i + 26).factorial : ℝ) * (2 * ((i + 26 : ℕ) : ℝ) + 1))
        ≤ (7 ^ i * y ^ 26) / (((Nat.factorial 26 : ℝ) * 27 ^ i) * 53) := by
      apply div_le_div (by positivity) hnum (by positivity) hden
    calc y ^ (i + 26) / (((i + 26).factorial : ℝ) * (2 * ((i + 26 : ℕ) : ℝ) + 1))
        ≤ (7 ^ i * y ^ 26) / (((Nat.factorial 26 : ℝ) * 27 ^ i) * 53) := hstep
      _ = (y ^ 26 / (403291461126605635584000000 * 53)) * (7 / 27) ^ i := by
          rw [div_pow, hc26]
          have h27 : ((27 : ℝ)) ^ i ≠ 0 := by positivity
          have hf26 : ((Nat.factorial 26 : ℝ)) ≠ 0 := by positivity
          field_simp
          ring
  have hnormsum : Summable (fun i : ℕ =>
      ‖(-1 : ℝ) ^ (i + 26) * y ^ (i + 26)
          / ((i + 26).factorial * (2 * ((i + 26 : ℕ) : ℝ) + 1))‖) := by
    apply Summable.of_nonneg_of_le (fun i => norm_nonneg _) ht_bound
    exact (summable_geometric_of_lt_one (by norm_num) (by norm_num)).mul_left _
  have htail : ‖tsum (fun i : ℕ =>
      (-1 : ℝ) ^ (i + 26) * y ^ (i + 26)
          / ((i + 26).factorial * (2 * ((i + 26 : ℕ) : ℝ) + 1)))‖
        ≤ erfTail y := by
    refine le_trans (norm_tsum_le_tsum_norm hnormsum) ?_
    have hle := tsum_le_tsum ht_bound hnormsum
      ((summable_geometric_of_lt_one (by norm_num) (by norm_num)).mul_left
        (y ^ 26 / (403291461126605635584000000 * 53)))
    refine le_trans hle ?_
    rw [tsum_mul_left, tsum_geometric_of_lt_one (by norm_num) (by norm_num)]
    unfold erfTail
    norm_num
  have hR : Rfun y - erfPoly y = tsum (fun i : ℕ =>
      (-1 : ℝ) ^ (i + 26) * y ^ (i + 26)
          / ((i + 26).factorial * (2 * ((i + 26 : ℕ) : ℝ) + 1))) := by
    unfold Rfun
    rw [← hsplit, hpoly]
    ring
  rw [hR, ← Real.norm_eq_abs]
  exact htail

theorem cE_bounds : ((cLoQ : ℚ) : ℝ) ≤ cE ∧ cE ≤ ((cHiQ : ℚ) : ℝ) := by
  have hpi_lo := Real.pi_gt_d6
  have hpi_hi := Real.pi_lt_d6
  have hpipos : (0 : ℝ) < Real.pi := Real.pi_pos
  have hsq : cE = Real.sqrt (2 / Real.pi) := by
    unfold cE
    rw [Real.sqrt_div (by norm_num : (0 : ℝ) ≤ 2)]
  constructor
  · rw [hsq]
    rw [Real.le_sqrt (by norm_num [cLoQ]) (by positivity)]
    rw [le_div_iff₀ hpipos]
    have hnum : ((cLoQ : ℚ) : ℝ) ^ 2 * 3.141593 ≤ 2 := by norm_num [cLoQ]
    nlinarith [hpi_hi, sq_nonneg ((cLoQ : ℚ) : ℝ)]
  · rw [hsq]
    have h1 : (2 : ℝ) / Real.pi ≤ ((cHiQ : ℚ) : ℝ) ^ 2 := by
      rw [div_le_iff₀ hpipos]
      have hnum : (2 : ℝ) ≤ ((cHiQ : ℚ) : ℝ) ^ 2 * 3.141592 := by norm_num [cHiQ]
      nlinarith [hpi_lo, sq_nonneg ((cHiQ : ℚ) : ℝ)]
    calc Real.sqrt (2 / Real.pi) ≤ Real.sqrt (((cHiQ : ℚ) : ℝ) ^ 2) := Real.sqrt_le_sqrt h1
      _ = ((cHiQ : ℚ) : ℝ) := Real.sqrt_sq (by norm_num [cHiQ])

theorem erf_eq_R (v : ℝ) : erf (v / Real.sqrt 2) = cE * v * Rfun (v ^ 2 / 2) := by
  unfold erf cE
  rw [← SFun_eq_erfInt, SFun_eq_mul_R]
  have hs2 : (0 : ℝ) < Real.sqrt 2 := Real.sqrt_pos.mpr (by norm_num)
  have hpi : (0 : ℝ) < Real.sqrt Real.pi := Real.sqrt_pos.mpr Real.pi_pos
  have hsq : (v / Real.sqrt 2) ^ 2 = v ^ 2 / 2 := by
    rw [div_pow, Real.sq_sqrt (by norm_num : (0 : ℝ) ≤ 2)]
  rw [hsq]
  have h2 : Real.sqrt 2 ^ 2 = 2 := Real.sq_sqrt (by norm_num)
  field_simp
  linear_combination (-(v * Rfun (v ^ 2 / 2) * Real.sqrt Real.pi)) * h2

theorem erfInt_mono {a b : ℝ} (h : a ≤ b) : erfInt a ≤ erfInt b := by
  have hadj : (∫ t in (0 : ℝ)..a, Real.exp (-(t ^ 2)))
      + (∫ t in a..b, Real.exp (-(t ^ 2))) = ∫ t in (0 : ℝ)..b, Real.exp (-(t ^ 2)) :=
    intervalIntegral.integral_add_adjacent_intervals
      (continuous_gauss.intervalIntegrable 0 a) (continuous_gauss.intervalIntegrable a b)
  have hnn : 0 ≤ ∫ t in a..b, Real.exp (-(t ^ 2)) :=
    intervalIntegral.integral_nonneg h (fun u _ => (Real.exp_pos _).le)
  unfold erfInt
  linarith [hadj, hnn]

theorem erf_mono {a b : ℝ} (h : a ≤ b) : erf a ≤ erf b := by
  unfold erf
  have hc : (0 : ℝ) ≤ 2 / Real.sqrt Real.pi := by positivity
  exact mul_le_mul_of_nonneg_left (erfInt_mono h) hc

theorem erfInt_le (z : ℝ) : erfInt z ≤ Real.sqrt Real.pi / 2 := by
  have hpi : (0 : ℝ) < Real.sqrt Real.pi := Real.sqrt_pos.mpr Real.pi_pos
  rcases le_or_lt z 0 with hz | hz
  · have h1 : erfInt z ≤ erfInt 0 := erfInt_mono hz
    rw [show erfInt 0 = 0 from intervalIntegral.integral_same] at h1
    linarith
  · have h2 : erfInt z = ∫ t in Set.Ioc (0 : ℝ) z, Real.exp (-(t ^ 2)) := by
      unfold erfInt
      rw [intervalIntegral.integral_of_le hz.le]
    have hIoi : MeasureTheory.IntegrableOn (fun t : ℝ => Real.exp (-(t ^ 2))) (Set.Ioi 0) := by
      have h := integrableOn_Ioi_exp_neg_mul_sq_iff.mpr (show (0 : ℝ) < 1 by norm_num)
      simpa using h
    have h3 : (∫ t in Set.Ioc (0 : ℝ) z, Real.exp (-(t ^ 2)))
        ≤ ∫ t in Set.Ioi (0 : ℝ), Real.exp (-(t ^ 2)) := by
      apply MeasureTheory.setIntegral_mono_set hIoi
      · filter_upwards with t
        exact (Real.exp_pos _).le
      · exact Filter.Eventually.of_forall (fun t ht => Set.Ioc_subset_Ioi_self ht)
    have h4 : (∫ t in Set.Ioi (0 : ℝ), Real.exp (-(t ^ 2))) = Real.sqrt Real.pi / 2 := by
      have h := integral_gaussian_Ioi 1
      simpa using h
    linarith [h2.le, h3, h4.le, h2.ge]

theorem erf_le_one (z : ℝ) : erf z ≤ 1 := by
  unfold erf
  have hpi : (0 : ℝ) < Real.sqrt Real.pi := Real.sqrt_pos.mpr Real.pi_pos
  have h := erfInt_le z
  rw [show (1 : ℝ) = (2 / Real.sqrt Real.pi) * (Real.sqrt Real.pi / 2) by field_simp]
  exact mul_le_mul_of_nonneg_left h (by positivity)

theorem erfTail_nonneg (y : ℝ) (_h0 : 0 ≤ y) : 0 ≤ erfTail y := by
  unfold erfTail
  positivity

theorem E_point_enclosure (q : ℚ) (h0 : 0 ≤ q) (h37 : q ≤ 37 / 10)
    (hPlo : 0 ≤ erfPoly (q ^ 2 / 2) - erfTail (q ^ 2 / 2)) :
    ((ElowQ q : ℚ) : ℝ) ≤ erf ((q : ℝ) / Real.sqrt 2)
  ∧ erf ((q : ℝ) / Real.sqrt 2) ≤ ((EhighQ q : ℚ) : ℝ) := by
  have hq0 : (0 : ℝ) ≤ (q : ℝ) := by exact_mod_cast h0
  have hy0 : (0 : ℝ) ≤ (q : ℝ) ^ 2 / 2 := by positivity
  have hy7 : (q : ℝ) ^ 2 / 2 ≤ 7 := by
    have hq : (q : ℝ) ≤ 37 / 10 := by
      have h := (Rat.cast_le (K := ℝ)).mpr h37
      push_cast at h
      linarith
    nlinarith
  have hbr := Rfun_bracket ((q : ℝ) ^ 2 / 2) hy0 hy7
  rcases abs_le.mp hbr with ⟨hbl, hbr2⟩
  have heq := erf_eq_R (q : ℝ)
  have hcE := cE_bounds
  have hcE0 : (0 : ℝ) ≤ cE := le_trans (by norm_num [cLoQ]) hcE.1
  have hPcast : (0 : ℝ) ≤ erfPoly ((q : ℝ) ^ 2 / 2) - erfTail ((q : ℝ) ^ 2 / 2) := by
    have h := hPlo
    have hc : ((erfPoly (q ^ 2 / 2) - erfTail (q ^ 2 / 2) : ℚ) : ℝ)
        = erfPoly ((q : ℝ) ^ 2 / 2) - erfTail ((q : ℝ) ^ 2 / 2) := by
      unfold erfPoly erfTail
      push_cast
      ring
    rw [← hc]
    exact_mod_cast h
  have hTnn := erfTail_nonneg ((q : ℝ) ^ 2 / 2) hy0
  constructor
  · have hc : ((ElowQ q : ℚ) : ℝ)
        = ((cLoQ : ℚ) : ℝ) * (q : ℝ) * (erfPoly ((q : ℝ) ^ 2 / 2) - erfTail ((q : ℝ) ^ 2 / 2)) := by
      unfold ElowQ erfPoly erfTail
      push_cast
      ring
    rw [hc, heq]
    calc ((cLoQ : ℚ) : ℝ) * (q : ℝ) * (erfPoly ((q : ℝ) ^ 2 / 2) - erfTail ((q : ℝ) ^ 2 / 2))
        ≤ cE * (q : ℝ) * (erfPoly ((q : ℝ) ^ 2 / 2) - erfTail ((q : ℝ) ^ 2 / 2)) := by
          apply mul_le_mul_of_nonneg_right (mul_le_mul_of_nonneg_right hcE.1 hq0) hPcast
      _ ≤ cE * (q : ℝ) * Rfun ((q : ℝ) ^ 2 / 2) := by
          apply mul_le_mul_of_nonneg_left (by linarith) (by positivity)
  · have hc : ((EhighQ q : ℚ) : ℝ)
        = ((cHiQ : ℚ) : ℝ) * (q : ℝ) * (erfPoly ((q : ℝ) ^ 2 / 2) + erfTail ((q : ℝ) ^ 2 / 2)) := by
      unfold EhighQ erfPoly erfTail
      push_cast
      ring
    rw [hc, heq]
    calc cE * (q : ℝ) * Rfun ((q : ℝ) ^ 2 / 2)
        ≤ cE * (q : ℝ) * (erfPoly ((q : ℝ) ^ 2 / 2) + erfTail ((q : ℝ) ^ 2 / 2)) := by
          apply mul_le_mul_of_nonneg_left (by linarith) (by positivity)
      _ ≤ ((cHiQ : ℚ) : ℝ) * (q : ℝ) * (erfPoly ((q : ℝ) ^ 2 / 2) + erfTail ((q : ℝ) ^ 2 / 2)) := by
          apply mul_le_mul_of_nonneg_right (mul_le_mul_of_nonneg_right hcE.2 hq0) (by linarith)

theorem uQ_nonneg (q : ℚ) (h0 : 0 ≤ q) : 0 ≤ uQ q := by
  unfold uQ c1Q c3Q
  have h1 : (0 : ℚ) ≤ q * q := mul_nonneg h0 h0
  nlinarith

theorem T_point_enclosure (q : ℚ) (h0 : 0 ≤ q) (h16 : 2 * uQ q ≤ 16) :
    ((TlowQ q : ℚ) : ℝ) ≤ Real.tanh (uFn (q : ℝ))
  ∧ Real.tanh (uFn (q : ℝ)) ≤ ((ThighQ q : ℚ) : ℝ) := by
  have hu0 : (0 : ℚ) ≤ 2 * uQ q := by linarith [uQ_nonneg q h0]
  have hw := expW_enclosure (2 * uQ q) hu0 h16
  have hcastw : ((2 * uQ q : ℚ) : ℝ) = 2 * uFn (q : ℝ) := by
    push_cast
    rw [uQ_cast]
  rw [hcastw] at hw
  have htanh := tanh_formula (uFn (q : ℝ))
  have h2 : (0 : ℝ) < Real.exp (2 * uFn (q : ℝ)) + 1 := by positivity
  constructor
  · rw [htanh]
    have hT : ((TlowQ q : ℚ) : ℝ) = 1 - 2 / (((expLoW (2 * uQ q) : ℚ) : ℝ) + 1) := by
      unfold TlowQ
      push_cast
      ring
    rw [hT]
    have h1 : (0 : ℝ) < ((expLoW (2 * uQ q) : ℚ) : ℝ) + 1 := by linarith [hw.1]
    have h3 : 2 / (Real.exp (2 * uFn (q : ℝ)) + 1) ≤ 2 / (((expLoW (2 * uQ q) : ℚ) : ℝ) + 1) :=
      div_le_div_of_nonneg_left (by norm_num) h1 (by linarith [hw.2.1])
    linarith
  · rw [htanh]
    have hT : ((ThighQ q : ℚ) : ℝ) = 1 - 2 / (((expHiW (2 * uQ q) : ℚ) : ℝ) + 1) := by
      unfold ThighQ
      push_cast
      ring
    rw [hT]
    have h3 : 2 / (((expHiW (2 * uQ q) : ℚ) : ℝ) + 1) ≤ 2 / (Real.exp (2 * uFn (q : ℝ)) + 1) :=
      div_le_div_of_nonneg_left (by norm_num) h2 (by linarith [hw.2.2])
    linarith

theorem erfInt_odd (z : ℝ) : erfInt (-z) = -erfInt z := by
  rw [← SFun_eq_erfInt, ← SFun_eq_erfInt, SFun_odd]

theorem erf_odd (z : ℝ) : erf (-z) = -erf z := by
  unfold erf
  rw [erfInt_odd]
  ring

theorem d_split (v : ℝ) :
    geluFn v - fastGeluFn v = v / 2 * (erf (v / Real.sqrt 2) - Real.tanh (uFn v)) := by
  unfold geluFn fastGeluFn uFn
  norm_num
  ring

theorem d_even (v : ℝ) :
    geluFn (-v) - fastGeluFn (-v) = geluFn v - fastGeluFn v := by
  rw [d_split, d_split]
  have h1 : (-v) / Real.sqrt 2 = -(v / Real.sqrt 2) := by ring
  rw [h1, erf_odd, uFn_odd, Real.tanh_neg]
  ring

theorem segment_bound (a b : ℚ)
    (h0a : 0 ≤ a) (hab : a ≤ b) (hb : b ≤ 37 / 10)
    (h16a : 2 * uQ a ≤ 16) (h16b : 2 * uQ b ≤ 16)
    (hPa : 0 ≤ erfPoly (a ^ 2 / 2) - erfTail (a ^ 2 / 2))
    (hPb : 0 ≤ erfPoly (b ^ 2 / 2) - erfTail (b ^ 2 / 2))
    (hE : b / 2 * (EhighQ b - TlowQ a) < 1 / 100)
    (hT : b / 2 * (ThighQ b - ElowQ a) < 1 / 100) :
    ∀ v : ℝ, (a : ℝ) ≤ v → v ≤ (b : ℝ) → |geluFn v - fastGeluFn v| < 1 / 100 := by
  intro v hav hvb
  have ha0R : (0 : ℝ) ≤ (a : ℝ) := by exact_mod_cast h0a
  have hv0 : (0 : ℝ) ≤ v := le_trans ha0R hav
  have hs2 : (0 : ℝ) < Real.sqrt 2 := Real.sqrt_pos.mpr (by norm_num)
  have hEa := E_point_enclosure a h0a (le_trans hab hb) hPa
  have hEb := E_point_enclosure b (le_trans h0a hab) hb hPb
  have hEmono1 : erf ((a : ℝ) / Real.sqrt 2) ≤ erf (v / Real.sqrt 2) := by
    apply erf_mono
    gcongr
  have hEmono2 : erf (v / Real.sqrt 2) ≤ erf ((b : ℝ) / Real.sqrt 2) := by
    apply erf_mono
    gcongr
  have hTa := T_point_enclosure a h0a h16a
  have hTb := T_point_enclosure b (le_trans h0a hab) h16b
  have hTmono1 : Real.tanh (uFn (a : ℝ)) ≤ Real.tanh (uFn v) :=
    tanh_mono (uFn_mono ha0R hav)
  have hTmono2 : Real.tanh (uFn v) ≤ Real.tanh (uFn (b : ℝ)) :=
    tanh_mono (uFn_mono hv0 hvb)
  have hER : (b : ℝ) / 2 * (((EhighQ b : ℚ) : ℝ) - ((TlowQ a : ℚ) : ℝ)) < 1 / 100 := by
    have h := (Rat.cast_lt (K := ℝ)).mpr hE
    push_cast at h
    linarith
  have hTR : (b : ℝ) / 2 * (((ThighQ b : ℚ) : ℝ) - ((ElowQ a : ℚ) : ℝ)) < 1 / 100 := by
    have h := (Rat.cast_lt (K := ℝ)).mpr hT
    push_cast at h
    linarith
  have hElo : ((ElowQ a : ℚ) : ℝ) ≤ erf (v / Real.sqrt 2) := le_trans hEa.1 hEmono1
  have hEhi : erf (v / Real.sqrt 2) ≤ ((EhighQ b : ℚ) : ℝ) := le_trans hEmono2 hEb.2
  have hTlo : ((TlowQ a : ℚ) : ℝ) ≤ Real.tanh (uFn v) := le_trans hTa.1 hTmono1
  have hThi : Real.tanh (uFn v) ≤ ((ThighQ b : ℚ) : ℝ) := le_trans hTmono2 hTb.2
  rw [d_split, abs_lt]
  set E := erf (v / Real.sqrt 2) with hEdef
  set T := Real.tanh (uFn v) with hTdef
  set eloa : ℝ := ((ElowQ a : ℚ) : ℝ) with heloa
  set ehib : ℝ := ((EhighQ b : ℚ) : ℝ) with hehib
  set tloa : ℝ := ((TlowQ a : ℚ) : ℝ) with htloa
  set thib : ℝ := ((ThighQ b : ℚ) : ℝ) with hthib
  have keyU : v / 2 * (E - T) ≤ v / 2 * (ehib - tloa) :=
    mul_le_mul_of_nonneg_left (by linarith) (by linarith)
  have hUb : v / 2 * (ehib - tloa) < 1 / 100 := by
    rcases le_or_lt 0 (ehib - tloa) with hc | hc
    · have h2 : v / 2 * (ehib - tloa) ≤ (b : ℝ) / 2 * (ehib - tloa) :=
        mul_le_mul_of_nonneg_right (by linarith) hc
      linarith
    · have h2 : v / 2 * (ehib - tloa) ≤ v / 2 * 0 :=
        mul_le_mul_of_nonneg_left hc.le (by linarith)
      rw [mul_zero] at h2
      linarith
  have keyL : v / 2 * (eloa - thib) ≤ v / 2 * (E - T) :=
    mul_le_mul_of_nonneg_left (by linarith) (by linarith)
  have hLb : -(1 / 100) < v / 2 * (eloa - thib) := by
    have hrev : v / 2 * (eloa - thib) = -(v / 2 * (thib - eloa)) := by ring
    rcases le_or_lt 0 (thib - eloa) with hc | hc
    · have h2 : v / 2 * (thib - eloa) ≤ (b : ℝ) / 2 * (thib - eloa) :=
        mul_le_mul_of_nonneg_right (by linarith) hc
      rw [hrev]
      linarith
    · have h2 : v / 2 * (thib - eloa) ≤ v / 2 * 0 :=
        mul_le_mul_of_nonneg_left hc.le (by linarith)
      rw [mul_zero] at h2
      rw [hrev]
      linarith
  exact ⟨by linarith, by linarith⟩


theorem tail_region : ∀ v : ℝ, (37 : ℝ) / 10 ≤ v → v ≤ 5 → |geluFn v - fastGeluFn v| < 1 / 100 := by
  intro v h37 h5
  have hq37 : ((37 / 10 : ℚ) : ℝ) = 37 / 10 := by norm_num
  have hEa := E_point_enclosure (37 / 10) (by norm_num) le_rfl (by norm_num [erfPoly, erfTail])
  have hTa := T_point_enclosure (37 / 10) (by norm_num) (by norm_num [uQ, c1Q, c3Q])
  have hnE : (5 : ℝ) / 2 * (1 - ((ElowQ (37 / 10) : ℚ) : ℝ)) < 1 / 100 := by
    have hq : (5 : ℚ) / 2 * (1 - ElowQ (37 / 10)) < 1 / 100 := by
      norm_num [ElowQ, erfPoly, erfTail, cLoQ]
    have h := (Rat.cast_lt (K := ℝ)).mpr hq
    push_cast at h
    linarith
  have hnT : (5 : ℝ) / 2 * (1 - ((TlowQ (37 / 10) : ℚ) : ℝ)) < 1 / 100 := by
    have hq : (5 : ℚ) / 2 * (1 - TlowQ (37 / 10)) < 1 / 100 := by
      norm_num [TlowQ, expLoW, expLo1, expPoly, expErr, uQ, c1Q, c3Q]
    have h := (Rat.cast_lt (K := ℝ)).mpr hq
    push_cast at h
    linarith
  have hv0 : (0 : ℝ) ≤ v := by linarith
  have hE1 : erf (v / Real.sqrt 2) ≤ 1 := erf_le_one _
  have hT1 : Real.tanh (uFn v) ≤ 1 := tanh_le_one _
  have hs2 : (0 : ℝ) < Real.sqrt 2 := Real.sqrt_pos.mpr (by norm_num)
  have hElo : ((ElowQ (37 / 10) : ℚ) : ℝ) ≤ erf (v / Real.sqrt 2) := by
    refine le_trans hEa.1 (erf_mono ?_)
    rw [hq37]
    gcongr
  have hTlo : ((TlowQ (37 / 10) : ℚ) : ℝ) ≤ Real.tanh (uFn v) := by
    refine le_trans hTa.1 (tanh_mono (uFn_mono (by rw [hq37]; norm_num) ?_))
    rw [hq37]
    linarith
  rw [d_split, abs_lt]
  set E := erf (v / Real.sqrt 2) with hEdef
  set T := Real.tanh (uFn v) with hTdef
  set eloa : ℝ := ((ElowQ (37 / 10) : ℚ) : ℝ) with heloa
  set tloa : ℝ := ((TlowQ (37 / 10) : ℚ) : ℝ) with htloa
  have hc1 : (0 : ℝ) ≤ 1 - tloa := by linarith
  have hc2 : (0 : ℝ) ≤ 1 - eloa := by linarith
  have hU1 : v / 2 * (E - T) ≤ v / 2 * (1 - tloa) :=
    mul_le_mul_of_nonneg_left (by linarith) (by linarith)
  have hU2 : v / 2 * (1 - tloa) ≤ (5 : ℝ) / 2 * (1 - tloa) :=
    mul_le_mul_of_nonneg_right (by linarith) hc1
  have hL0 : v / 2 * (eloa - 1) ≤ v / 2 * (E - T) :=
    mul_le_mul_of_nonneg_left (by linarith) (by linarith)
  have hrev : v / 2 * (eloa - 1) = -(v / 2 * (1 - eloa)) := by ring
  have hL1 : v / 2 * (1 - eloa) ≤ (5 : ℝ) / 2 * (1 - eloa) :=
    mul_le_mul_of_nonneg_right (by linarith) hc2
  constructor
  · linarith [hL0, hrev, hL1, hnE]
  · linarith

theorem segB0 : ∀ v : ℝ, ((0 : ℚ) : ℝ) ≤ v → v ≤ ((3/20 : ℚ) : ℝ) →
    |geluFn v - fastGeluFn v| < 1 / 100 :=
  segment_bound (0) (3/20) (by norm_num) (by norm_num) (by norm_num)
    (by norm_num [uQ, c1Q, c3Q]) (by norm_num [uQ, c1Q, c3Q])
    (by norm_num [erfPoly, erfTail]) (by norm_num [erfPoly, erfTail])
    (by norm_num [EhighQ, TlowQ, erfPoly, erfTail, expLoW, expLo1, expPoly, expErr,
      uQ, c1Q, c3Q, cHiQ])
    (by norm_num [ThighQ, ElowQ, erfPoly, erfTail, expHiW, expHi1, expPoly, expErr,
      uQ, c1Q, c3Q, cLoQ])

theorem segB1 : ∀ v : ℝ, ((3/20 : ℚ) : ℝ) ≤ v → v ≤ ((49/200 : ℚ) : ℝ) →
    |geluFn v - fastGeluFn v| < 1 / 100 :=
  segment_bound (3/20) (49/200) (by norm_num) (by norm_num) (by norm_num)
    (by norm_num [uQ, c1Q, c3Q]) (by norm_num [uQ, c1Q, c3Q])
    (by norm_num [erfPoly, erfTail]) (by norm_num [erfPoly, erfTail])
    (by norm_num [EhighQ, TlowQ, erfPoly, erfTail, expLoW, expLo1, expPoly, expErr,
      uQ, c1Q, c3Q, cHiQ])
    (by norm_num [ThighQ, ElowQ, erfPoly, erfTail, expHiW, expHi1, expPoly, expErr,
      uQ, c1Q, c3Q, cLoQ])

theorem segB2 : ∀ v : ℝ, ((49/200 : ℚ) : ℝ) ≤ v → v ≤ ((8/25 : ℚ) : ℝ) →
    |geluFn v - fastGeluFn v| < 1 / 100 :=
  segment_bound (49/200) (8/25) (by norm_num) (by norm_num) (by norm_num)
    (by norm_num [uQ, c1Q, c3Q]) (by norm_num [uQ, c1Q, c3Q])
    (by norm_num [erfPoly, erfTail]) (by norm_num [erfPoly, erfTail])
    (by norm_num [EhighQ, TlowQ, erfPoly, erfTail, expLoW, expLo1, expPoly, expErr,
      uQ, c1Q, c3Q, cHiQ])
    (by norm_num [ThighQ, ElowQ, erfPoly, erfTail, expHiW, expHi1, expPoly, expErr,
      uQ, c1Q, c3Q, cLoQ])

theorem segB3 : ∀ v : ℝ, ((8/25 : ℚ) : ℝ) ≤ v → v ≤ ((77/200 : ℚ) : ℝ) →
    |geluFn v - fastGeluFn v| < 1 / 100 :=
  segment_bound (8/25) (77/200) (by norm_num) (by norm_num) (by norm_num)
    (by norm_num [uQ, c1Q, c3Q]) (by norm_num [uQ, c1Q, c3Q])
    (by norm_num [erfPoly, erfTail]) (by norm_num [erfPoly, erfTail])
    (by norm_num [EhighQ, TlowQ, erfPoly, erfTail, expLoW, expLo1, expPoly, expErr,
      uQ, c1Q, c3Q, cHiQ])
    (by norm_num [ThighQ, ElowQ, erfPoly, erfTail, expHiW, expHi1, expPoly, expErr,
      uQ, c1Q, c3Q, cLoQ])

theorem segB4 : ∀ v : ℝ, ((77/200 : ℚ) : ℝ) ≤ v → v ≤ ((11/25 : ℚ) : ℝ) →
    |geluFn v - fastGeluFn v| < 1 / 100 :=
  segment_bound (77/200) (11/25) (by norm_num) (by norm_num) (by norm_num)
    (by norm_num [uQ, c1Q, c3Q]) (by norm_num [uQ, c1Q, c3Q])
    (by norm_num [erfPoly, erfTail]) (by norm_num [erfPoly, erfTail])
    (by norm_num [EhighQ, TlowQ, erfPoly, erfTail, expLoW, expLo1, expPoly, expErr,
      uQ, c1Q, c3Q, cHiQ])
    (by norm_num [ThighQ, ElowQ, erfPoly, erfTail, expHiW, expHi1, expPoly, expErr,
      uQ, c1Q, c3Q, cLoQ])

theorem segB5 : ∀ v : ℝ, ((11/25 : ℚ) : ℝ) ≤ v → v ≤ ((49/100 : ℚ) : ℝ) →
    |geluFn v - fastGeluFn v| < 1 / 100 :=
  segment_bound (11/25) (49/100) (by norm_num) (by norm_num) (by norm_num)
    (by norm_num [uQ, c1Q, c3Q]) (by norm_num [uQ, c1Q, c3Q])
    (by norm_num [erfPoly, erfTail]) (by norm_num [erfPoly, erfTail])
    (by norm_num [EhighQ, TlowQ, erfPoly, erfTail, expLoW, expLo1, expPoly, expErr,
      uQ, c1Q, c3Q, cHiQ])
    (by norm_num [ThighQ, ElowQ, erfPoly, erfTail, expHiW, expHi1, expPoly, expErr,
      uQ, c1Q, c3Q, cLoQ])

theorem segB6 : ∀ v : ℝ, ((49/100 : ℚ) : ℝ) ≤ v → v ≤ ((27/50 : ℚ) : ℝ) →
    |geluFn v - fastGeluFn v| < 1 / 100 :=
  segment_bound (49/100) (27/50) (by norm_num) (by norm_num) (by norm_num)
    (by norm_num [uQ, c1Q, c3Q]) (by norm_num [uQ, c1Q, c3Q])
    (by norm_num [erfPoly, erfTail]) (by norm_num [erfPoly, erfTail])
    (by norm_num [EhighQ, TlowQ, erfPoly, erfTail, expLoW, expLo1, expPoly, expErr,
      uQ, c1Q, c3Q, cHiQ])
    (by norm_num [ThighQ, ElowQ, erfPoly, erfTail, expHiW, expHi1, expPoly, expErr,
      uQ, c1Q, c3Q, cLoQ])

theorem segB7 : ∀ v : ℝ, ((27/50 : ℚ) : ℝ) ≤ v → v ≤ ((117/200 : ℚ) : ℝ) →
    |geluFn v - fastGeluFn v| < 1 / 100 :=
  segment_bound (27/50) (117/200) (by norm_num) (by norm_num) (by norm_num)
    (by norm_num [uQ, c1Q, c3Q]) (by norm_num [uQ, c1Q, c3Q])
    (by norm_num [erfPoly, erfTail]) (by norm_num [erfPoly, erfTail])
    (by norm_num [EhighQ, TlowQ, erfPoly, erfTail, expLoW, expLo1, expPoly, expErr,
      uQ, c1Q, c3Q, cHiQ])
    (by norm_num [ThighQ, ElowQ, erfPoly, erfTail, expHiW, expHi1, expPoly, expErr,
      uQ, c1Q, c3Q, cLoQ])

theorem segB8 : ∀ v : ℝ, ((117/200 : ℚ) : ℝ) ≤ v → v ≤ ((63/100 : ℚ) : ℝ) →
    |geluFn v - fastGeluFn v| < 1 / 100 :=
  segment_bound (117/200) (63/100) (by norm_num) (by norm_num) (by norm_num)
    (by norm_num [uQ, c1Q, c3Q]) (by norm_num [uQ, c1Q, c3Q])
    (by norm_num [erfPoly, erfTail]) (by norm_num [erfPoly, erfTail])
    (by norm_num [EhighQ, TlowQ, erfPoly, erfTail, expLoW, expLo1, expPoly, expErr,
      uQ, c1Q, c3Q, cHiQ])
    (by norm_num [ThighQ, ElowQ, erfPoly, erfTail, expHiW, expHi1, expPoly, expErr,
      uQ, c1Q, c3Q, cLoQ])

theorem segB9 : ∀ v : ℝ, ((63/100 : ℚ) : ℝ) ≤ v → v ≤ ((67/100 : ℚ) : ℝ) →
    |geluFn v - fastGeluFn v| < 1 / 100 :=
  segment_bound (63/100) (67/100) (by norm_num) (by norm_num) (by norm_num)
    (by norm_num [uQ, c1Q, c3Q]) (by norm_num [uQ, c1Q, c3Q])
    (by norm_num [erfPoly, erfTail]) (by norm_num [erfPoly, erfTail])
    (by norm_num [EhighQ, TlowQ, erfPoly, erfTail, expLoW, expLo1, expPoly, expErr,
      uQ, c1Q, c3Q, cHiQ])
    (by norm_num [ThighQ, ElowQ, erfPoly, erfTail, expHiW, expHi1, expPoly, expErr,
      uQ, c1Q, c3Q, cLoQ])

theorem segB10 : ∀ v : ℝ, ((67/100 : ℚ) : ℝ) ≤ v → v ≤ ((71/100 : ℚ) : ℝ) →
    |geluFn v - fastGeluFn v| < 1 / 100 :=
  segment_bound (67/100) (71/100) (by norm_num) (by norm_num) (by norm_num)
    (by norm_num [uQ, c1Q, c3Q]) (by norm_num [uQ, c1Q, c3Q])
    (by norm_num [erfPoly, erfTail]) (by norm_num [erfPoly, erfTail])
    (by norm_num [EhighQ, TlowQ, erfPoly, erfTail, expLoW, expLo1, expPoly, expErr,
      uQ, c1Q, c3Q, cHiQ])
    (by norm_num [ThighQ, ElowQ, erfPoly, erfTail, expHiW, expHi1, expPoly, expErr,
      uQ, c1Q, c3Q, cLoQ])

theorem segB11 : ∀ v : ℝ, ((71/100 : ℚ) : ℝ) ≤ v → v ≤ ((3/4 : ℚ) : ℝ) →
    |geluFn v - fastGeluFn v| < 1 / 100 :=
  segment_bound (71/100) (3/4) (by norm_num) (by norm_num) (by norm_num)
    (by norm_num [uQ, c1Q, c3Q]) (by norm_num [uQ, c1Q, c3Q])
    (by norm_num [erfPoly, erfTail]) (by norm_num [erfPoly, erfTail])
    (by norm_num [EhighQ, TlowQ, erfPoly, erfTail, expLoW, expLo1, expPoly, expErr,
      uQ, c1Q, c3Q, cHiQ])
    (by norm_num [ThighQ, ElowQ, erfPoly, erfTail, expHiW, expHi1, expPoly, expErr,
      uQ, c1Q, c3Q, cLoQ])

theorem segB12 : ∀ v : ℝ, ((3/4 : ℚ) : ℝ) ≤ v → v ≤ ((79/100 : ℚ) : ℝ) →
    |geluFn v - fastGeluFn v| < 1 / 100 :=
  segment_bound (3/4) (79/100) (by norm_num) (by norm_num) (by norm_num)
    (by norm_num [uQ, c1Q, c3Q]) (by norm_num [uQ, c1Q, c3Q])
    (by norm_num [erfPoly, erfTail]) (by norm_num [erfPoly, erfTail])
    (by norm_num [EhighQ, TlowQ, erfPoly, erfTail, expLoW, expLo1, expPoly, expErr,
      uQ, c1Q, c3Q, cHiQ])
    (by norm_num [ThighQ, ElowQ, erfPoly, erfTail, expHiW, expHi1, expPoly, expErr,
      uQ, c1Q, c3Q, cLoQ])

theorem segB13 : ∀ v : ℝ, ((79/100 : ℚ) : ℝ) ≤ v → v ≤ ((33/40 : ℚ) : ℝ) →
    |geluFn v - fastGeluFn v| < 1 / 100 :=
  segment_bound (79/100) (33/40) (by norm_num) (by norm_num) (by norm_num)
    (by norm_num [uQ, c1Q, c3Q]) (by norm_num [uQ, c1Q, c3Q])
    (by norm_num [erfPoly, erfTail]) (by norm_num [erfPoly, erfTail])
    (by norm_num [EhighQ, TlowQ, erfPoly, erfTail, expLoW, expLo1, expPoly, expErr,
      uQ, c1Q, c3Q, cHiQ])
    (by norm_num [ThighQ, ElowQ, erfPoly, erfTail, expHiW, expHi1, expPoly, expErr,
      uQ, c1Q, c3Q, cLoQ])

theorem segB14 : ∀ v : ℝ, ((33/40 : ℚ) : ℝ) ≤ v → v ≤ ((43/50 : ℚ) : ℝ) →
    |geluFn v - fastGeluFn v| < 1 / 100 :=
  segment_bound (33/40) (43/50) (by norm_num) (by norm_num) (by norm_num)
    (by norm_num [uQ, c1Q, c3Q]) (by norm_num [uQ, c1Q, c3Q])
    (by norm_num [erfPoly, erfTail]) (by norm_num [erfPoly, erfTail])
    (by norm_num [EhighQ, TlowQ, erfPoly, erfTail, expLoW, expLo1, expPoly, expErr,
      uQ, c1Q, c3Q, cHiQ])
    (by norm_num [ThighQ, ElowQ, erfPoly, erfTail, expHiW, expHi1, expPoly, expErr,
      uQ, c1Q, c3Q, cLoQ])

theorem segB15 : ∀ v : ℝ, ((43/50 : ℚ) : ℝ) ≤ v → v ≤ ((179/200 : ℚ) : ℝ) →
    |geluFn v - fastGeluFn v| < 1 / 100 :=
  segment_bound (43/50) (179/200) (by norm_num) (by norm_num) (by norm_num)
    (by norm_num [uQ, c1Q, c3Q]) (by norm_num [uQ, c1Q, c3Q])
    (by norm_num [erfPoly, erfTail]) (by norm_num [erfPoly, erfTail])
    (by norm_num [EhighQ, TlowQ, erfPoly, erfTail, expLoW, expLo1, expPoly, expErr,
      uQ, c1Q, c3Q, cHiQ])
    (by norm_num [ThighQ, ElowQ, erfPoly, erfTail, expHiW, expHi1, expPoly, expErr,
      uQ, c1Q, c3Q, cLoQ])

theorem segB16 : ∀ v : ℝ, ((179/200 : ℚ) : ℝ) ≤ v → v ≤ ((93/100 : ℚ) : ℝ) →
    |geluFn v - fastGeluFn v| < 1 / 100 :=
  segment_bound (179/200) (93/100) (by norm_num) (by norm_num) (by norm_num)
    (by norm_num [uQ, c1Q, c3Q]) (by norm_num [uQ, c1Q, c3Q])
    (by norm_num [erfPoly, erfTail]) (by norm_num [erfPoly, erfTail])
    (by norm_num [EhighQ, TlowQ, erfPoly, erfTail, expLoW, expLo1, expPoly, expErr,
      uQ, c1Q, c3Q, cHiQ])
    (by norm_num [ThighQ, ElowQ, erfPoly, erfTail, expHiW, expHi1, expPoly, expErr,
      uQ, c1Q, c3Q, cLoQ])

theorem segB17 : ∀ v : ℝ, ((93/100 : ℚ) : ℝ) ≤ v → v ≤ ((193/200 : ℚ) : ℝ) →
    |geluFn v - fastGeluFn v| < 1 / 100 :=
  segment_bound (93/100) (193/200) (by norm_num) (by norm_num) (by norm_num)
    (by norm_num [uQ, c1Q, c3Q]) (by norm_num [uQ, c1Q, c3Q])
    (by norm_num [erfPoly, erfTail]) (by norm_num [erfPoly, erfTail])
    (by norm_num [EhighQ, TlowQ, erfPoly, erfTail, expLoW, expLo1, expPoly, expErr,
      uQ, c1Q, c3Q, cHiQ])
    (by norm_num [ThighQ, ElowQ, erfPoly, erfTail, expHiW, expHi1, expPoly, expErr,
      uQ, c1Q, c3Q, cLoQ])

theorem segB18 : ∀ v : ℝ, ((193/200 : ℚ) : ℝ) ≤ v → v ≤ ((1 : ℚ) : ℝ) →
    |geluFn v - fastGeluFn v| < 1 / 100 :=
  segment_bound (193/200) (1) (by norm_num) (by norm_num) (by norm_num)
    (by norm_num [uQ, c1Q, c3Q]) (by norm_num [uQ, c1Q, c3Q])
    (by norm_num [erfPoly, erfTail]) (by norm_num [erfPoly, erfTail])
    (by norm_num [EhighQ, TlowQ, erfPoly, erfTail, expLoW, expLo1, expPoly, expErr,
      uQ, c1Q, c3Q, cHiQ])
    (by norm_num [ThighQ, ElowQ, erfPoly, erfTail, expHiW, expHi1, expPoly, expErr,
      uQ, c1Q, c3Q, cLoQ])

theorem segB19 : ∀ v : ℝ, ((1 : ℚ) : ℝ) ≤ v → v ≤ ((207/200 : ℚ) : ℝ) →
    |geluFn v - fastGeluFn v| < 1 / 100 :=
  segment_bound (1) (207/200) (by norm_num) (by norm_num) (by norm_num)
    (by norm_num [uQ, c1Q, c3Q]) (by norm_num [uQ, c1Q, c3Q])
    (by norm_num [erfPoly, erfTail]) (by norm_num [erfPoly, erfTail])
    (by norm_num [EhighQ, TlowQ, erfPoly, erfTail, expLoW, expLo1, expPoly, expErr,
      uQ, c1Q, c3Q, cHiQ])
    (by norm_num [ThighQ, ElowQ, erfPoly, erfTail, expHiW, expHi1, expPoly, expErr,
      uQ, c1Q, c3Q, cLoQ])

theorem segB20 : ∀ v : ℝ, ((207/200 : ℚ) : ℝ) ≤ v → v ≤ ((107/100 : ℚ) : ℝ) →
    |geluFn v - fastGeluFn v| < 1 / 100 :=
  segment_bound (207/200) (107/100) (by norm_num) (by norm_num) (by norm_num)
    (by norm_num [uQ, c1Q, c3Q]) (by norm_num [uQ, c1Q, c3Q])
    (by norm_num [erfPoly, erfTail]) (by norm_num [erfPoly, erfTail])
    (by norm_num [EhighQ, TlowQ, erfPoly, erfTail, expLoW, expLo1, expPoly, expErr,
      uQ, c1Q, c3Q, cHiQ])
    (by norm_num [ThighQ, ElowQ, erfPoly, erfTail, expHiW, expHi1, expPoly, expErr,
      uQ, c1Q, c3Q, cLoQ])

theorem segB21 : ∀ v : ℝ, ((107/100 : ℚ) : ℝ) ≤ v → v ≤ ((221/200 : ℚ) : ℝ) →
    |geluFn v - fastGeluFn v| < 1 / 100 :=
  segment_bound (107/100) (221/200) (by norm_num) (by norm_num) (by norm_num)
    (by norm_num [uQ, c1Q, c3Q]) (by norm_num [uQ, c1Q, c3Q])
    (by norm_num [erfPoly, erfTail]) (by norm_num [erfPoly, erfTail])
    (by norm_num [EhighQ, TlowQ, erfPoly, erfTail, expLoW, expLo1, expPoly, expErr,
      uQ, c1Q, c3Q, cHiQ])
    (by norm_num [ThighQ, ElowQ, erfPoly, erfTail, expHiW, expHi1, expPoly, expErr,
      uQ, c1Q, c3Q, cLoQ])

theorem segB22 : ∀ v : ℝ, ((221/200 : ℚ) : ℝ) ≤ v → v ≤ ((57/50 : ℚ) : ℝ) →
    |geluFn v - fastGeluFn v| < 1 / 100 :=
  segment_bound (221/200) (57/50) (by norm_num) (by norm_num) (by norm_num)
    (by norm_num [uQ, c1Q, c3Q]) (by norm_num [uQ, c1Q, c3Q])
    (by norm_num [erfPoly, erfTail]) (by norm_num [erfPoly, erfTail])
    (by norm_num [EhighQ, TlowQ, erfPoly, erfTail, expLoW, expLo1, expPoly, expErr,
      uQ, c1Q, c3Q, cHiQ])
    (by norm_num [ThighQ, ElowQ, erfPoly, erfTail, expHiW, expHi1, expPoly, expErr,
      uQ, c1Q, c3Q, cLoQ])

theorem segB23 : ∀ v : ℝ, ((57/50 : ℚ) : ℝ) ≤ v → v ≤ ((47/40 : ℚ) : ℝ) →
    |geluFn v - fastGeluFn v| < 1 / 100 :=
  segment_bound (57/50) (47/40) (by norm_num) (by norm_num) (by norm_num)
    (by norm_num [uQ, c1Q, c3Q]) (by norm_num [uQ, c1Q, c3Q])
    (by norm_num [erfPoly, erfTail]) (by norm_num [erfPoly, erfTail])
    (by norm_num [EhighQ, TlowQ, erfPoly, erfTail, expLoW, expLo1, expPoly, expErr,
      uQ, c1Q, c3Q, cHiQ])
    (by norm_num [ThighQ, ElowQ, erfPoly, erfTail, expHiW, expHi1, expPoly, expErr,
      uQ, c1Q, c3Q, cLoQ])

theorem segB24 : ∀ v : ℝ, ((47/40 : ℚ) : ℝ) ≤ v → v ≤ ((121/100 : ℚ) : ℝ) →
    |geluFn v - fastGeluFn v| < 1 / 100 :=
  segment_bound (47/40) (121/100) (by norm_num) (by norm_num) (by norm_num)
    (by norm_num [uQ, c1Q, c3Q]) (by norm_num [uQ, c1Q, c3Q])
    (by norm_num [erfPoly, erfTail]) (by norm_num [erfPoly, erfTail])
    (by norm_num [EhighQ, TlowQ, erfPoly, erfTail, expLoW, expLo1, expPoly, expErr,
      uQ, c1Q, c3Q, cHiQ])
    (by norm_num [ThighQ, ElowQ, erfPoly, erfTail, expHiW, expHi1, expPoly, expErr,
      uQ, c1Q, c3Q, cLoQ])

theorem segB25 : ∀ v : ℝ, ((121/100 : ℚ) : ℝ) ≤ v → v ≤ ((249/200 : ℚ) : ℝ) →
    |geluFn v - fastGeluFn v| < 1 / 100 :=
  segment_bound (121/100) (249/200) (by norm_num) (by norm_num) (by norm_num)
    (by norm_num [uQ, c1Q, c3Q]) (by norm_num [uQ, c1Q, c3Q])
    (by norm_num [erfPoly, erfTail]) (by norm_num [erfPoly, erfTail])
    (by norm_num [EhighQ, TlowQ, erfPoly, erfTail, expLoW, expLo1, expPoly, expErr,
      uQ, c1Q, c3Q, cHiQ])
    (by norm_num [ThighQ, ElowQ, erfPoly, erfTail, expHiW, expHi1, expPoly, expErr,
      uQ, c1Q, c3Q, cLoQ])

theorem segB26 : ∀ v : ℝ, ((249/200 : ℚ) : ℝ) ≤ v → v ≤ ((257/200 : ℚ) : ℝ) →
    |geluFn v - fastGeluFn v| < 1 / 100 :=
  segment_bound (249/200) (257/200) (by norm_num) (by norm_num) (by norm_num)
    (by norm_num [uQ, c1Q, c3Q]) (by norm_num [uQ, c1Q, c3Q])
    (by norm_num [erfPoly, erfTail]) (by norm_num [erfPoly, erfTail])
    (by norm_num [EhighQ, TlowQ, erfPoly, erfTail, expLoW, expLo1, expPoly, expErr,
      uQ, c1Q, c3Q, cHiQ])
    (by norm_num [ThighQ, ElowQ, erfPoly, erfTail, expHiW, expHi1, expPoly, expErr,
      uQ, c1Q, c3Q, cLoQ])

theorem segB27 : ∀ v : ℝ, ((257/200 : ℚ) : ℝ) ≤ v → v ≤ ((53/40 : ℚ) : ℝ) →
    |geluFn v - fastGeluFn v| < 1 / 100 :=
  segment_bound (257/200) (53/40) (by norm_num) (by norm_num) (by norm_num)
    (by norm_num [uQ, c1Q, c3Q]) (by norm_num [uQ, c1Q, c3Q])
    (by norm_num [erfPoly, erfTail]) (by norm_num [erfPoly, erfTail])
    (by norm_num [EhighQ, TlowQ, erfPoly, erfTail, expLoW, expLo1, expPoly, expErr,
      uQ, c1Q, c3Q, cHiQ])
    (by norm_num [ThighQ, ElowQ, erfPoly, erfTail, expHiW, expHi1, expPoly, expErr,
      uQ, c1Q, c3Q, cLoQ])

theorem segB28 : ∀ v : ℝ, ((53/40 : ℚ) : ℝ) ≤ v → v ≤ ((273/200 : ℚ) : ℝ) →
    |geluFn v - fastGeluFn v| < 1 / 100 :=
  segment_bound (53/40) (273/200) (by norm_num) (by norm_num) (by norm_num)
    (by norm_num [uQ, c1Q, c3Q]) (by norm_num [uQ, c1Q, c3Q])
    (by norm_num [erfPoly, erfTail]) (by norm_num [erfPoly, erfTail])
    (by norm_num [EhighQ, TlowQ, erfPoly, erfTail, expLoW, expLo1, expPoly, expErr,
      uQ, c1Q, c3Q, cHiQ])
    (by norm_num [ThighQ, ElowQ, erfPoly, erfTail, expHiW, expHi1, expPoly, expErr,
      uQ, c1Q, c3Q, cLoQ])

theorem segB29 : ∀ v : ℝ, ((273/200 : ℚ) : ℝ) ≤ v → v ≤ ((281/200 : ℚ) : ℝ) →
    |geluFn v - fastGeluFn v| < 1 / 100 :=
  segment_bound (273/200) (281/200) (by norm_num) (by norm_num) (by norm_num)
    (by norm_num [uQ, c1Q, c3Q]) (by norm_num [uQ, c1Q, c3Q])
    (by norm_num [erfPoly, erfTail]) (by norm_num [erfPoly, erfTail])
    (by norm_num [EhighQ, TlowQ, erfPoly, erfTail, expLoW, expLo1, expPoly, expErr,
      uQ, c1Q, c3Q, cHiQ])
    (by norm_num [ThighQ, ElowQ, erfPoly, erfTail, expHiW, expHi1, expPoly, expErr,
      uQ, c1Q, c3Q, cLoQ])

theorem segB30 : ∀ v : ℝ, ((281/200 : ℚ) : ℝ) ≤ v → v ≤ ((289/200 : ℚ) : ℝ) →
    |geluFn v - fastGeluFn v| < 1 / 100 :=
  segment_bound (281/200) (289/200) (by norm_num) (by norm_num) (by norm_num)
    (by norm_num [uQ, c1Q, c3Q]) (by norm_num [uQ, c1Q, c3Q])
    (by norm_num [erfPoly, erfTail]) (by norm_num [erfPoly, erfTail])
    (by norm_num [EhighQ, TlowQ, erfPoly, erfTail, expLoW, expLo1, expPoly, expErr,
      uQ, c1Q, c3Q, cHiQ])
    (by norm_num [ThighQ, ElowQ, erfPoly, erfTail, expHiW, expHi1, expPoly, expErr,
      uQ, c1Q, c3Q, cLoQ])

theorem segB31 : ∀ v : ℝ, ((289/200 : ℚ) : ℝ) ≤ v → v ≤ ((149/100 : ℚ) : ℝ) →
    |geluFn v - fastGeluFn v| < 1 / 100 :=
  segment_bound (289/200) (149/100) (by norm_num) (by norm_num) (by norm_num)
    (by norm_num [uQ, c1Q, c3Q]) (by norm_num [uQ, c1Q, c3Q])
    (by norm_num [erfPoly, erfTail]) (by norm_num [erfPoly, erfTail])
    (by norm_num [EhighQ, TlowQ, erfPoly, erfTail, expLoW, expLo1, expPoly, expErr,
      uQ, c1Q, c3Q, cHiQ])
    (by norm_num [ThighQ, ElowQ, erfPoly, erfTail, expHiW, expHi1, expPoly, expErr,
      uQ, c1Q, c3Q, cLoQ])

theorem segB32 : ∀ v : ℝ, ((149/100 : ℚ) : ℝ) ≤ v → v ≤ ((307/200 : ℚ) : ℝ) →
    |geluFn v - fastGeluFn v| < 1 / 100 :=
  segment_bound (149/100) (307/200) (by norm_num) (by norm_num) (by norm_num)
    (by norm_num [uQ, c1Q, c3Q]) (by norm_num [uQ, c1Q, c3Q])
    (by norm_num [erfPoly, erfTail]) (by norm_num [erfPoly, erfTail])
    (by norm_num [EhighQ, TlowQ, erfPoly, erfTail, expLoW, expLo1, expPoly, expErr,
      uQ, c1Q, c3Q, cHiQ])
    (by norm_num [ThighQ, ElowQ, erfPoly, erfTail, expHiW, expHi1, expPoly, expErr,
      uQ, c1Q, c3Q, cLoQ])

theorem segB33 : ∀ v : ℝ, ((307/200 : ℚ) : ℝ) ≤ v → v ≤ ((79/50 : ℚ) : ℝ) →
    |geluFn v - fastGeluFn v| < 1 / 100 :=
  segment_bound (307/200) (79/50) (by norm_num) (by norm_num) (by norm_num)
    (by norm_num [uQ, c1Q, c3Q]) (by norm_num [uQ, c1Q, c3Q])
    (by norm_num [erfPoly, erfTail]) (by norm_num [erfPoly, erfTail])
    (by norm_num [EhighQ, TlowQ, erfPoly, erfTail, expLoW, expLo1, expPoly, expErr,
      uQ, c1Q, c3Q, cHiQ])
    (by norm_num [ThighQ, ElowQ, erfPoly, erfTail, expHiW, expHi1, expPoly, expErr,
      uQ, c1Q, c3Q, cLoQ])

theorem segB34 : ∀ v : ℝ, ((79/50 : ℚ) : ℝ) ≤ v → v ≤ ((163/100 : ℚ) : ℝ) →
    |geluFn v - fastGeluFn v| < 1 / 100 :=
  segment_bound (79/50) (163/100) (by norm_num) (by norm_num) (by norm_num)
    (by norm_num [uQ, c1Q, c3Q]) (by norm_num [uQ, c1Q, c3Q])
    (by norm_num [erfPoly, erfTail]) (by norm_num [erfPoly, erfTail])
    (by norm_num [EhighQ, TlowQ, erfPoly, erfTail, expLoW, expLo1, expPoly, expErr,
      uQ, c1Q, c3Q, cHiQ])
    (by norm_num [ThighQ, ElowQ, erfPoly, erfTail, expHiW, expHi1, expPoly, expErr,
      uQ, c1Q, c3Q, cLoQ])

theorem segB35 : ∀ v : ℝ, ((163/100 : ℚ) : ℝ) ≤ v → v ≤ ((42/25 : ℚ) : ℝ) →
    |geluFn v - fastGeluFn v| < 1 / 100 :=
  segment_bound (163/100) (42/25) (by norm_num) (by norm_num) (by norm_num)
    (by norm_num [uQ, c1Q, c3Q]) (by norm_num [uQ, c1Q, c3Q])
    (by norm_num [erfPoly, erfTail]) (by norm_num [erfPoly, erfTail])
    (by norm_num [EhighQ, TlowQ, erfPoly, erfTail, expLoW, expLo1, expPoly, expErr,
      uQ, c1Q, c3Q, cHiQ])
    (by norm_num [ThighQ, ElowQ, erfPoly, erfTail, expHiW, expHi1, expPoly, expErr,
      uQ, c1Q, c3Q, cLoQ])

theorem segB36 : ∀ v : ℝ, ((42/25 : ℚ) : ℝ) ≤ v → v ≤ ((347/200 : ℚ) : ℝ) →
    |geluFn v - fastGeluFn v| < 1 / 100 :=
  segment_bound (42/25) (347/200) (by norm_num) (by norm_num) (by norm_num)
    (by norm_num [uQ, c1Q, c3Q]) (by norm_num [uQ, c1Q, c3Q])
    (by norm_num [erfPoly, erfTail]) (by norm_num [erfPoly, erfTail])
    (by norm_num [EhighQ, TlowQ, erfPoly, erfTail, expLoW, expLo1, expPoly, expErr,
      uQ, c1Q, c3Q, cHiQ])
    (by norm_num [ThighQ, ElowQ, erfPoly, erfTail, expHiW, expHi1, expPoly, expErr,
      uQ, c1Q, c3Q, cLoQ])

theorem segB37 : ∀ v : ℝ, ((347/200 : ℚ) : ℝ) ≤ v → v ≤ ((359/200 : ℚ) : ℝ) →
    |geluFn v - fastGeluFn v| < 1 / 100 :=
  segment_bound (347/200) (359/200) (by norm_num) (by norm_num) (by norm_num)
    (by norm_num [uQ, c1Q, c3Q]) (by norm_num [uQ, c1Q, c3Q])
    (by norm_num [erfPoly, erfTail]) (by norm_num [erfPoly, erfTail])
    (by norm_num [EhighQ, TlowQ, erfPoly, erfTail, expLoW, expLo1, expPoly, expErr,
      uQ, c1Q, c3Q, cHiQ])
    (by norm_num [ThighQ, ElowQ, erfPoly, erfTail, expHiW, expHi1, expPoly, expErr,
      uQ, c1Q, c3Q, cLoQ])

theorem segB38 : ∀ v : ℝ, ((359/200 : ℚ) : ℝ) ≤ v → v ≤ ((93/50 : ℚ) : ℝ) →
    |geluFn v - fastGeluFn v| < 1 / 100 :=
  segment_bound (359/200) (93/50) (by norm_num) (by norm_num) (by norm_num)
    (by norm_num [uQ, c1Q, c3Q]) (by norm_num [uQ, c1Q, c3Q])
    (by norm_num [erfPoly, erfTail]) (by norm_num [erfPoly, erfTail])
    (by norm_num [EhighQ, TlowQ, erfPoly, erfTail, expLoW, expLo1, expPoly, expErr,
      uQ, c1Q, c3Q, cHiQ])
    (by norm_num [ThighQ, ElowQ, erfPoly, erfTail, expHiW, expHi1, expPoly, expErr,
      uQ, c1Q, c3Q, cLoQ])

theorem segB39 : ∀ v : ℝ, ((93/50 : ℚ) : ℝ) ≤ v → v ≤ ((193/100 : ℚ) : ℝ) →
    |geluFn v - fastGeluFn v| < 1 / 100 :=
  segment_bound (93/50) (193/100) (by norm_num) (by norm_num) (by norm_num)
    (by norm_num [uQ, c1Q, c3Q]) (by norm_num [uQ, c1Q, c3Q])
    (by norm_num [erfPoly, erfTail]) (by norm_num [erfPoly, erfTail])
    (by norm_num [EhighQ, TlowQ, erfPoly, erfTail, expLoW, expLo1, expPoly, expErr,
      uQ, c1Q, c3Q, cHiQ])
    (by norm_num [ThighQ, ElowQ, erfPoly, erfTail, expHiW, expHi1, expPoly, expErr,
      uQ, c1Q, c3Q, cLoQ])

theorem segB40 : ∀ v : ℝ, ((193/100 : ℚ) : ℝ) ≤ v → v ≤ ((201/100 : ℚ) : ℝ) →
    |geluFn v - fastGeluFn v| < 1 / 100 :=
  segment_bound (193/100) (201/100) (by norm_num) (by norm_num) (by norm_num)
    (by norm_num [uQ, c1Q, c3Q]) (by norm_num [uQ, c1Q, c3Q])
    (by norm_num [erfPoly, erfTail]) (by norm_num [erfPoly, erfTail])
    (by norm_num [EhighQ, TlowQ, erfPoly, erfTail, expLoW, expLo1, expPoly, expErr,
      uQ, c1Q, c3Q, cHiQ])
    (by norm_num [ThighQ, ElowQ, erfPoly, erfTail, expHiW, expHi1, expPoly, expErr,
      uQ, c1Q, c3Q, cLoQ])

theorem segB41 : ∀ v : ℝ, ((201/100 : ℚ) : ℝ) ≤ v → v ≤ ((21/10 : ℚ) : ℝ) →
    |geluFn v - fastGeluFn v| < 1 / 100 :=
  segment_bound (201/100) (21/10) (by norm_num) (by norm_num) (by norm_num)
    (by norm_num [uQ, c1Q, c3Q]) (by norm_num [uQ, c1Q, c3Q])
    (by norm_num [erfPoly, erfTail]) (by norm_num [erfPoly, erfTail])
    (by norm_num [EhighQ, TlowQ, erfPoly, erfTail, expLoW, expLo1, expPoly, expErr,
      uQ, c1Q, c3Q, cHiQ])
    (by norm_num [ThighQ, ElowQ, erfPoly, erfTail, expHiW, expHi1, expPoly, expErr,
      uQ, c1Q, c3Q, cLoQ])

theorem segB42 : ∀ v : ℝ, ((21/10 : ℚ) : ℝ) ≤ v → v ≤ ((441/200 : ℚ) : ℝ) →
    |geluFn v - fastGeluFn v| < 1 / 100 :=
  segment_bound (21/10) (441/200) (by norm_num) (by norm_num) (by norm_num)
    (by norm_num [uQ, c1Q, c3Q]) (by norm_num [uQ, c1Q, c3Q])
    (by norm_num [erfPoly, erfTail]) (by norm_num [erfPoly, erfTail])
    (by norm_num [EhighQ, TlowQ, erfPoly, erfTail, expLoW, expLo1, expPoly, expErr,
      uQ, c1Q, c3Q, cHiQ])
    (by norm_num [ThighQ, ElowQ, erfPoly, erfTail, expHiW, expHi1, expPoly, expErr,
      uQ, c1Q, c3Q, cLoQ])

theorem segB43 : ∀ v : ℝ, ((441/200 : ℚ) : ℝ) ≤ v → v ≤ ((233/100 : ℚ) : ℝ) →
    |geluFn v - fastGeluFn v| < 1 / 100 :=
  segment_bound (441/200) (233/100) (by norm_num) (by norm_num) (by norm_num)
    (by norm_num [uQ, c1Q, c3Q]) (by norm_num [uQ, c1Q, c3Q])
    (by norm_num [erfPoly, erfTail]) (by norm_num [erfPoly, erfTail])
    (by norm_num [EhighQ, TlowQ, erfPoly, erfTail, expLoW, expLo1, expPoly, expErr,
      uQ, c1Q, c3Q, cHiQ])
    (by norm_num [ThighQ, ElowQ, erfPoly, erfTail, expHiW, expHi1, expPoly, expErr,
      uQ, c1Q, c3Q, cLoQ])

theorem segB44 : ∀ v : ℝ, ((233/100 : ℚ) : ℝ) ≤ v → v ≤ ((499/200 : ℚ) : ℝ) →
    |geluFn v - fastGeluFn v| < 1 / 100 :=
  segment_bound (233/100) (499/200) (by norm_num) (by norm_num) (by norm_num)
    (by norm_num [uQ, c1Q, c3Q]) (by norm_num [uQ, c1Q, c3Q])
    (by norm_num [erfPoly, erfTail]) (by norm_num [erfPoly, erfTail])
    (by norm_num [EhighQ, TlowQ, erfPoly, erfTail, expLoW, expLo1, expPoly, expErr,
      uQ, c1Q, c3Q, cHiQ])
    (by norm_num [ThighQ, ElowQ, erfPoly, erfTail, expHiW, expHi1, expPoly, expErr,
      uQ, c1Q, c3Q, cLoQ])

theorem segB45 : ∀ v : ℝ, ((499/200 : ℚ) : ℝ) ≤ v → v ≤ ((549/200 : ℚ) : ℝ) →
    |geluFn v - fastGeluFn v| < 1 / 100 :=
  segment_bound (499/200) (549/200) (by norm_num) (by norm_num) (by norm_num)
    (by norm_num [uQ, c1Q, c3Q]) (by norm_num [uQ, c1Q, c3Q])
    (by norm_num [erfPoly, erfTail]) (by norm_num [erfPoly, erfTail])
    (by norm_num [EhighQ, TlowQ, erfPoly, erfTail, expLoW, expLo1, expPoly, expErr,
      uQ, c1Q, c3Q, cHiQ])
    (by norm_num [ThighQ, ElowQ, erfPoly, erfTail, expHiW, expHi1, expPoly, expErr,
      uQ, c1Q, c3Q, cLoQ])

theorem segB46 : ∀ v : ℝ, ((549/200 : ℚ) : ℝ) ≤ v → v ≤ ((683/200 : ℚ) : ℝ) →
    |geluFn v - fastGeluFn v| < 1 / 100 :=
  segment_bound (549/200) (683/200) (by norm_num) (by norm_num) (by norm_num)
    (by norm_num [uQ, c1Q, c3Q]) (by norm_num [uQ, c1Q, c3Q])
    (by norm_num [erfPoly, erfTail]) (by norm_num [erfPoly, erfTail])
    (by norm_num [EhighQ, TlowQ, erfPoly, erfTail, expLoW, expLo1, expPoly, expErr,
      uQ, c1Q, c3Q, cHiQ])
    (by norm_num [ThighQ, ElowQ, erfPoly, erfTail, expHiW, expHi1, expPoly, expErr,
      uQ, c1Q, c3Q, cLoQ])

theorem segB47 : ∀ v : ℝ, ((683/200 : ℚ) : ℝ) ≤ v → v ≤ ((37/10 : ℚ) : ℝ) →
    |geluFn v - fastGeluFn v| < 1 / 100 :=
  segment_bound (683/200) (37/10) (by norm_num) (by norm_num) (by norm_num)
    (by norm_num [uQ, c1Q, c3Q]) (by norm_num [uQ, c1Q, c3Q])
    (by norm_num [erfPoly, erfTail]) (by norm_num [erfPoly, erfTail])
    (by norm_num [EhighQ, TlowQ, erfPoly, erfTail, expLoW, expLo1, expPoly, expErr,
      uQ, c1Q, c3Q, cHiQ])
    (by norm_num [ThighQ, ElowQ, erfPoly, erfTail, expHiW, expHi1, expPoly, expErr,
      uQ, c1Q, c3Q, cLoQ])

theorem middle_bound : ∀ v : ℝ, 0 ≤ v → v ≤ 37 / 10 → |geluFn v - fastGeluFn v| < 1 / 100 := by
  intro v h0 htop
  rcases le_or_lt v ((3/20 : ℚ) : ℝ) with hb | ha0
  · exact segB0 v (by push_cast; linarith) hb
  rcases le_or_lt v ((49/200 : ℚ) : ℝ) with hb | ha1
  · exact segB1 v ha0.le hb
  rcases le_or_lt v ((8/25 : ℚ) : ℝ) with hb | ha2
  · exact segB2 v ha1.le hb
  rcases le_or_lt v ((77/200 : ℚ) : ℝ) with hb | ha3
  · exact segB3 v ha2.le hb
  rcases le_or_lt v ((11/25 : ℚ) : ℝ) with hb | ha4
  · exact segB4 v ha3.le hb
  rcases le_or_lt v ((49/100 : ℚ) : ℝ) with hb | ha5
  · exact segB5 v ha4.le hb
  rcases le_or_lt v ((27/50 : ℚ) : ℝ) with hb | ha6
  · exact segB6 v ha5.le hb
  rcases le_or_lt v ((117/200 : ℚ) : ℝ) with hb | ha7
  · exact segB7 v ha6.le hb
  rcases le_or_lt v ((63/100 : ℚ) : ℝ) with hb | ha8
  · exact segB8 v ha7.le hb
  rcases le_or_lt v ((67/100 : ℚ) : ℝ) with hb | ha9
  · exact segB9 v ha8.le hb
  rcases le_or_lt v ((71/100 : ℚ) : ℝ) with hb | ha10
  · exact segB10 v ha9.le hb
  rcases le_or_lt v ((3/4 : ℚ) : ℝ) with hb | ha11
  · exact segB11 v ha10.le hb
  rcases le_or_lt v ((79/100 : ℚ) : ℝ) with hb | ha12
  · exact segB12 v ha11.le hb
  rcases le_or_lt v ((33/40 : ℚ) : ℝ) with hb | ha13
  · exact segB13 v ha12.le hb
  rcases le_or_lt v ((43/50 : ℚ) : ℝ) with hb | ha14
  · exact segB14 v ha13.le hb
  rcases le_or_lt v ((179/200 : ℚ) : ℝ) with hb | ha15
  · exact segB15 v ha14.le hb
  rcases le_or_lt v ((93/100 : ℚ) : ℝ) with hb | ha16
  · exact segB16 v ha15.le hb
  rcases le_or_lt v ((193/200 : ℚ) : ℝ) with hb | ha17
  · exact segB17 v ha16.le hb
  rcases le_or_lt v ((1 : ℚ) : ℝ) with hb | ha18
  · exact segB18 v ha17.le hb
  rcases le_or_lt v ((207/200 : ℚ) : ℝ) with hb | ha19
  · exact segB19 v ha18.le hb
  rcases le_or_lt v ((107/100 : ℚ) : ℝ) with hb | ha20
  · exact segB20 v ha19.le hb
  rcases le_or_lt v ((221/200 : ℚ) : ℝ) with hb | ha21
  · exact segB21 v ha20.le hb
  rcases le_or_lt v ((57/50 : ℚ) : ℝ) with hb | ha22
  · exact segB22 v ha21.le hb
  rcases le_or_lt v ((47/40 : ℚ) : ℝ) with hb | ha23
  · exact segB23 v ha22.le hb
  rcases le_or_lt v ((121/100 : ℚ) : ℝ) with hb | ha24
  · exact segB24 v ha23.le hb
  rcases le_or_lt v ((249/200 : ℚ) : ℝ) with hb | ha25
  · exact segB25 v ha24.le hb
  rcases le_or_lt v ((257/200 : ℚ) : ℝ) with hb | ha26
  · exact segB26 v ha25.le hb
  rcases le_or_lt v ((53/40 : ℚ) : ℝ) with hb | ha27
  · exact segB27 v ha26.le hb
  rcases le_or_lt v ((273/200 : ℚ) : ℝ) with hb | ha28
  · exact segB28 v ha27.le hb
  rcases le_or_lt v ((281/200 : ℚ) : ℝ) with hb | ha29
  · exact segB29 v ha28.le hb
  rcases le_or_lt v ((289/200 : ℚ) : ℝ) with hb | ha30
  · exact segB30 v ha29.le hb
  rcases le_or_lt v ((149/100 : ℚ) : ℝ) with hb | ha31
  · exact segB31 v ha30.le hb
  rcases le_or_lt v ((307/200 : ℚ) : ℝ) with hb | ha32
  · exact segB32 v ha31.le hb
  rcases le_or_lt v ((79/50 : ℚ) : ℝ) with hb | ha33
  · exact segB33 v ha32.le hb
  rcases le_or_lt v ((163/100 : ℚ) : ℝ) with hb | ha34
  · exact segB34 v ha33.le hb
  rcases le_or_lt v ((42/25 : ℚ) : ℝ) with hb | ha35
  · exact segB35 v ha34.le hb
  rcases le_or_lt v ((347/200 : ℚ) : ℝ) with hb | ha36
  · exact segB36 v ha35.le hb
  rcases le_or_lt v ((359/200 : ℚ) : ℝ) with hb | ha37
  · exact segB37 v ha36.le hb
  rcases le_or_lt v ((93/50 : ℚ) : ℝ) with hb | ha38
  · exact segB38 v ha37.le hb
  rcases le_or_lt v ((193/100 : ℚ) : ℝ) with hb | ha39
  · exact segB39 v ha38.le hb
  rcases le_or_lt v ((201/100 : ℚ) : ℝ) with hb | ha40
  · exact segB40 v ha39.le hb
  rcases le_or_lt v ((21/10 : ℚ) : ℝ) with hb | ha41
  · exact segB41 v ha40.le hb
  rcases le_or_lt v ((441/200 : ℚ) : ℝ) with hb | ha42
  · exact segB42 v ha41.le hb
  rcases le_or_lt v ((233/100 : ℚ) : ℝ) with hb | ha43
  · exact segB43 v ha42.le hb
  rcases le_or_lt v ((499/200 : ℚ) : ℝ) with hb | ha44
  · exact segB44 v ha43.le hb
  rcases le_or_lt v ((549/200 : ℚ) : ℝ) with hb | ha45
  · exact segB45 v ha44.le hb
  rcases le_or_lt v ((683/200 : ℚ) : ℝ) with hb | ha46
  · exact segB46 v ha45.le hb
  exact segB47 v ha46.le (by push_cast; linarith)

/-- C9: the Gelu layer computes the exact erf-based formula elementwise,
the FastGelu layer computes the tanh approximation elementwise, and on
the interval from -5 to 5 the two pointwise functions differ by less
than 1e-2 in absolute value. -/
theorem claim_C9_gelu_fastgelu_close :
    (∀ x : Tensor, Gelu.apply x = x.emap geluFn)
  ∧ (∀ x : Tensor, FastGelu.apply x = x.emap fastGeluFn)
  ∧ ∀ v : ℝ, -5 ≤ v → v ≤ 5 → |geluFn v - fastGeluFn v| < 1 / 100 := by
  refine ⟨fun x => rfl, fun x => rfl, ?_⟩
  have hpos : ∀ w : ℝ, 0 ≤ w → w ≤ 5 → |geluFn w - fastGeluFn w| < 1 / 100 := by
    intro w h0 h5
    rcases le_or_lt w (37 / 10) with hmid | htail
    · exact middle_bound w h0 hmid
    · exact tail_region w htail.le h5
  intro v h5lo h5hi
  rcases le_or_lt 0 v with h0 | hneg
  · exact hpos v h0 h5hi
  · have heq := d_even (-v)
    rw [neg_neg] at heq
    rw [heq]
    exact hpos (-v) (by linarith) (by linarith)

/-- Witness for C9: at the concrete input 0 the bound holds. -/
theorem claim_C9_gelu_fastgelu_close_witness :
    |geluFn 0 - fastGeluFn 0| < 1 / 100 :=
  claim_C9_gelu_fastgelu_close.2.2 0 (by norm_num) (by norm_num)

end Trax